import Mathlib

/-!
The goboot-web-starter module: configuration resolver, conditional starter, managed web server

A shallow embedding of

* `pkg/starter/config/config.go`  (`WebServerConfig.Init`),
* `pkg/starter/starter.go`        (`WebStarter.ShouldStart`),
* `pkg/starter/server/server.go`  (`WebServer.Init`, `Start`, `Stop`, `SetRouter`, `GetConfig`),

together with the Go standard-library routines these functions call
(`strconv.Atoi`, `strconv.ParseBool`, `time.ParseDuration`, `context.WithTimeout`,
the `%d` verb of `fmt.Sprintf`).

Conventions.

* A Go `string` is a sequence of bytes: `GoString := List Nat`, one number per byte.
* Go `int` and `time.Duration` are 64-bit; they are embedded as `Int`, and every place where
  the Go code relies on `uint64` wrap-around carries an explicit `% 2 ^ 64`.
* A nil pointer or nil interface value is `none`.
* A Go panic is the `Except.error` branch of `Except Panic _`; an `error` return value is an
  `Option GoError` (`none` is Go's `nil`).
-/

namespace GoBoot

/-! ## Strings -/

/-- A Go string: a finite sequence of bytes. -/
abbrev GoString := List Nat

/-- The bytes of an ASCII literal of the source text. -/
def ascii (s : String) : GoString := s.data.map Char.toNat

/-! ## Errors and panics -/

/-- The `error` values produced by the parsers, by the host and by the listener. -/
inductive GoError where
  /-- `strconv.ErrSyntax` wrapped in a `*NumError` for function `fn`. -/
  | syntaxError (fn : String) (s : GoString)
  /-- `strconv.ErrRange` wrapped in a `*NumError` for function `fn`. -/
  | rangeError (fn : String) (s : GoString)
  /-- "time: invalid duration". -/
  | invalidDuration (s : GoString)
  /-- "time: missing unit in duration". -/
  | missingUnit (s : GoString)
  /-- "time: unknown unit ... in duration". -/
  | unknownUnit (u : GoString) (s : GoString)
  /-- An error reported by the host container or by the HTTP listener. -/
  | external (code : Nat)
  deriving DecidableEq, Repr

/-- The run-time panics the embedded code can raise. -/
inductive Panic where
  /-- The explicit `panic("router not set")` of `WebServer.Start`. -/
  | routerNotSet
  /-- Run-time error: invalid memory address or nil pointer dereference. -/
  | nilDereference
  /-- Run-time error: interface conversion (a failed single-value type assertion). -/
  | interfaceConversion
  deriving DecidableEq, Repr

deriving instance DecidableEq for Except

/-! ## strconv.ParseBool -/

/-- Go `strconv.ParseBool`. -/
def ParseBool (str : GoString) : Except GoError Bool :=
  if str = ascii "1" ∨ str = ascii "t" ∨ str = ascii "T" ∨ str = ascii "true"
      ∨ str = ascii "TRUE" ∨ str = ascii "True" then
    .ok true
  else if str = ascii "0" ∨ str = ascii "f" ∨ str = ascii "F" ∨ str = ascii "false"
      ∨ str = ascii "FALSE" ∨ str = ascii "False" then
    .ok false
  else
    .error (.syntaxError "ParseBool" str)

/-! ## strconv.Atoi -/

/-- The `IntSize` constant of `strconv` on a 64-bit platform. -/
def intSize : Nat := 64

/-- The `maxUint64` constant of `strconv`. -/
def maxUint64 : Nat := 2 ^ 64 - 1

/-- The digit loop of the fast path of `strconv.Atoi`: `ch -= '0'` is byte arithmetic,
so a byte below `'0'` wraps around to a value above 9. -/
def atoiFastLoop : GoString → Int → Option Int
  | [], n => some n
  | ch :: rest, n =>
    let ch := (ch + 256 - 48) % 256
    if ch > 9 then none else atoiFastLoop rest (n * 10 + (ch : Int))

/-- The `lower` helper of `strconv`: `c | ('x' - 'X')`. -/
def lower (c : Nat) : Nat := c ||| 32

/-- The digit loop of `strconv.ParseUint` for `base = 10`, `bitSize = 64`.
`none` is a syntax error, `some (n, false)` a value, `some (maxVal, true)` a range error. -/
def parseUintLoop : GoString → Nat → Option (Nat × Bool)
  | [], n => some (n, false)
  | c :: rest, n =>
    let cutoff := maxUint64 / 10 + 1
    let maxVal := 2 ^ 64 - 1
    let d? : Option Nat :=
      if 48 ≤ c ∧ c ≤ 57 then some (c - 48)
      else if 97 ≤ lower c ∧ lower c ≤ 122 then some ((lower c - 97 + 10) % 256)
      else none
    match d? with
    | none => none
    | some d =>
      if d ≥ 10 then none
      else if n ≥ cutoff then some (maxVal, true)
      else
        let n10 := (n * 10) % 2 ^ 64
        let n1 := (n10 + d) % 2 ^ 64
        if n1 < n10 ∨ n1 > maxVal then some (maxVal, true)
        else parseUintLoop rest n1

/-- Go `strconv.ParseUint(s, 10, 0)`; the Boolean flags a range error, in which case the
value is `maxVal`. -/
def ParseUint (s : GoString) : Except GoError (Nat × Bool) :=
  if s = [] then .error (.syntaxError "ParseUint" s)
  else
    match parseUintLoop s 0 with
    | none => .error (.syntaxError "ParseUint" s)
    | some r => .ok r

/-- Go `strconv.ParseInt(s, 10, 0)`. -/
def ParseInt (s0 : GoString) : Except GoError Int :=
  if s0 = [] then .error (.syntaxError "ParseInt" s0)
  else
    let neg := s0.head? = some 45
    let s := if s0.head? = some 43 then s0.tail else if s0.head? = some 45 then s0.tail else s0
    match ParseUint s with
    | .error _ => .error (.syntaxError "ParseInt" s0)
    | .ok (un, _) =>
      let cutoff : Nat := 2 ^ (intSize - 1)
      if ¬ neg ∧ un ≥ cutoff then .error (.rangeError "ParseInt" s0)
      else if neg ∧ un > cutoff then .error (.rangeError "ParseInt" s0)
      else if neg then .ok (-(un : Int)) else .ok (un : Int)

/-- Go `strconv.Atoi`: a fast path for strings of 1 to 18 bytes, `ParseInt` otherwise. -/
def Atoi (s0 : GoString) : Except GoError Int :=
  let sLen := s0.length
  if intSize = 64 ∧ 0 < sLen ∧ sLen < 19 then
    let signed := s0.head? = some 45 ∨ s0.head? = some 43
    let s := if signed then s0.tail else s0
    if signed ∧ s.length < 1 then .error (.syntaxError "Atoi" s0)
    else
      match atoiFastLoop s 0 with
      | none => .error (.syntaxError "Atoi" s0)
      | some n => if s0.head? = some 45 then .ok (-n) else .ok n
  else
    match ParseInt s0 with
    | .error (.rangeError _ s) => .error (.rangeError "Atoi" s)
    | .error (.syntaxError _ s) => .error (.syntaxError "Atoi" s)
    | .error e => .error e
    | .ok n => .ok n

/-! ## time.ParseDuration -/

/-- The `leadingInt` helper of package `time`: consumes the leading `[0-9]*` of `s`, starting
from the accumulator `x`; `none` is `errLeadingInt` (the value exceeds `1 << 63`). -/
def leadingInt : GoString → Nat → Option (Nat × GoString)
  | [], x => some (x, [])
  | c :: rest, x =>
    if c < 48 ∨ c > 57 then some (x, c :: rest)
    else if x > 2 ^ 63 / 10 then none
    else
      let x := (x * 10 + c - 48) % 2 ^ 64
      if x > 2 ^ 63 then none else leadingInt rest x

/-- The `leadingFraction` helper of package `time`: consumes the leading `[0-9]*` of `s` and
returns the accumulated digits `x`, the scale (a power of ten, exact in `float64` for the at
most nineteen digits that are accumulated) and the rest; on overflow it stops accumulating. -/
def leadingFraction : GoString → Nat → Nat → Bool → Nat × Nat × GoString
  | [], x, scale, _ => (x, scale, [])
  | c :: rest, x, scale, overflow =>
    if c < 48 ∨ c > 57 then (x, scale, c :: rest)
    else if overflow then leadingFraction rest x scale overflow
    else if x > (2 ^ 63 - 1) / 10 then leadingFraction rest x scale true
    else
      let y := (x * 10 + c - 48) % 2 ^ 64
      if y > 2 ^ 63 then leadingFraction rest x scale true
      else leadingFraction rest y (scale * 10) false

/-- The unit scan of `time.ParseDuration`: splits `s` at the first byte that is `'.'` or a
digit, returning `(s[:i], s[i:])`. -/
def splitUnit : GoString → GoString × GoString
  | [] => ([], [])
  | c :: rest =>
    if c = 46 ∨ (48 ≤ c ∧ c ≤ 57) then ([], c :: rest)
    else ((splitUnit rest).1.cons c, (splitUnit rest).2)

/-- The `unitMap` table of package `time` (nanoseconds per unit). -/
def unitMap (u : GoString) : Option Nat :=
  if u = ascii "ns" then some 1
  else if u = ascii "us" then some 1000
  else if u = [194, 181, 115] then some 1000
  else if u = [206, 188, 115] then some 1000
  else if u = ascii "ms" then some 1000000
  else if u = ascii "s" then some 1000000000
  else if u = ascii "m" then some 60000000000
  else if u = ascii "h" then some 3600000000000
  else none

/-- The outcome of the optional `(\.[0-9]*)?` part of a group: the digits `f` after the
point, their `scale`, whether any digit was consumed (`post`), and the rest of the input. -/
structure FractionPart where
  f : Nat
  scale : Nat
  post : Bool
  rest : GoString
  deriving DecidableEq, Repr

/-- The block "Consume `(\.[0-9]*)?`" of `time.ParseDuration`: without a leading `'.'`
nothing is consumed and `f = 0`, `scale = 1`, `post = false`. -/
def fractionPart (s : GoString) : FractionPart :=
  if s.head? = some 46 then
    let s := s.tail
    let pl := s.length
    let r := leadingFraction s 0 1 false
    { f := r.1, scale := r.2.1, post := decide (pl ≠ r.2.2.length), rest := r.2.2 }
  else { f := 0, scale := 1, post := false, rest := s }

/-- The tail of a pass of the loop of `time.ParseDuration`, `d += v` followed by the
overflow check, with the rest `s` of the input. -/
def addGroup (orig s : GoString) (d v : Nat) : Except GoError (Nat × GoString) :=
  let d := (d + v) % 2 ^ 64
  if d > 2 ^ 63 then .error (.invalidDuration orig) else .ok (d, s)

/-- One pass through the body of the `for s != ""` loop of `time.ParseDuration`: parses one
`[0-9]*(\.[0-9]*)?[a-z]+` group of `s` and returns the new total `d` and the rest of `s`.

`fracNanos f unit scale` stands for the `float64` expression
`uint64(float64(f) * (float64(unit) / scale))`, whose rounding is not modelled. -/
def parseDurationStep (fracNanos : Nat → Nat → Nat → Nat) (orig s : GoString) (d : Nat) :
    Except GoError (Nat × GoString) :=
  match s.head? with
  | none => .error (.invalidDuration orig)
  | some c0 =>
    if ¬ (c0 = 46 ∨ (48 ≤ c0 ∧ c0 ≤ 57)) then .error (.invalidDuration orig)
    else
      let pl := s.length
      match leadingInt s 0 with
      | none => .error (.invalidDuration orig)
      | some (v, s1) =>
        let pre := decide (pl ≠ s1.length)
        let fp := fractionPart s1
        let f := fp.f
        let scale := fp.scale
        let post := fp.post
        let s2 := fp.rest
        if ¬ pre ∧ ¬ post then .error (.invalidDuration orig)
        else
          let u := (splitUnit s2).1
          let s3 := (splitUnit s2).2
          if u.length = 0 then .error (.missingUnit orig)
          else
            match unitMap u with
            | none => .error (.unknownUnit u orig)
            | some unit =>
              if v > 2 ^ 63 / unit then .error (.invalidDuration orig)
              else
                let v := (v * unit) % 2 ^ 64
                if f > 0 then
                  let v := (v + fracNanos f unit scale) % 2 ^ 64
                  if v > 2 ^ 63 then .error (.invalidDuration orig)
                  else addGroup orig s3 d v
                else addGroup orig s3 d v

/-- The `for s != ""` loop of `time.ParseDuration`, bounded by `fuel` passes; `none` means
the bound was reached with input left (it is not, see `parseDurationLoop_isSome`). -/
def parseDurationLoop (fracNanos : Nat → Nat → Nat → Nat) (orig : GoString) :
    Nat → GoString → Nat → Option (Except GoError Nat)
  | _, [], d => some (.ok d)
  | 0, _ :: _, _ => none
  | fuel + 1, c :: rest, d =>
    match parseDurationStep fracNanos orig (c :: rest) d with
    | .error e => some (.error e)
    | .ok (d1, s1) => parseDurationLoop fracNanos orig fuel s1 d1

/-- Go `time.ParseDuration`; the result is in nanoseconds. Every pass of the loop consumes
at least one byte, so `len(s)` passes suffice. -/
def ParseDuration (fracNanos : Nat → Nat → Nat → Nat) (orig : GoString) :
    Except GoError Int :=
  let neg := orig.head? = some 45
  let s := if orig.head? = some 45 ∨ orig.head? = some 43 then orig.tail else orig
  if s = ascii "0" then .ok 0
  else if s = [] then .error (.invalidDuration orig)
  else
    match parseDurationLoop fracNanos orig s.length s 0 with
    | none => .error (.invalidDuration orig)
    | some (.error e) => .error e
    | some (.ok d) =>
      if neg then .ok (-(d : Int))
      else if d > 2 ^ 63 - 1 then .error (.invalidDuration orig)
      else .ok (d : Int)

/-- The exact (unrounded) value of the fractional contribution, used where a concrete
stand-in for the `float64` expression is needed. -/
def exactFrac (f unit scale : Nat) : Nat := f * unit / scale

/-! ## fmt.Sprintf("%d", n) -/

/-- The decimal rendering of a Go `int` by the `%d` verb: a minus sign for negative values,
then the digits without leading zeros. -/
def formatInt (n : Int) : GoString :=
  let digits := (Nat.toDigits 10 n.natAbs).map Char.toNat
  if n < 0 then 45 :: digits else digits

/-! ## context.WithTimeout -/

/-- A point in time, in nanoseconds on the clock that `time.Now` reads. -/
abbrev Time := Int

/-- A `context.Context`, as far as the server uses it: its `Deadline()`, `none` when no
deadline is set. -/
structure Context where
  deadline : Option Time
  deriving DecidableEq, Repr

/-- Go `context.WithDeadline`: when the parent's deadline is already earlier than `d` the
result is `WithCancel(parent)`, which reports the parent's deadline; otherwise the result
reports `d`. -/
def WithDeadline (parent : Context) (d : Time) : Context :=
  match parent.deadline with
  | some cur => if cur < d then { deadline := some cur } else { deadline := some d }
  | none => { deadline := some d }

/-- Go `context.WithTimeout(parent, timeout)`, which is
`WithDeadline(parent, time.Now().Add(timeout))`; `now` is the clock reading of that call. -/
def WithTimeout (now : Time) (parent : Context) (timeout : Int) : Context :=
  WithDeadline parent (now + timeout)

/-! ## The configuration snapshot (`config.go`) -/

def defaultWebServerPort : GoString := ascii "8080"
def defaultWebServerName : GoString := ascii "DefaultWebServerConfig"
def defaultReadTimeout : GoString := ascii "5s"
def defaultWriteTimeout : GoString := ascii "10s"
def defaultIdleTimeout : GoString := ascii "60s"
def defaultShutdownTimeout : GoString := ascii "30s"
def defaultEnableGracefulShutdown : Bool := true
def defaultWebServerEnabled : Bool := true

/-- The struct `WebServerConfig`; the durations are in nanoseconds. -/
structure WebServerConfig where
  WebServerEnabled : Bool
  Port : Int
  ReadTimeout : Int
  WriteTimeout : Int
  IdleTimeout : Int
  ShutdownTimeout : Int
  EnableGracefulShutdown : Bool
  deriving DecidableEq, Repr

/-- The zero value `WebServerConfig{}`. -/
def WebServerConfig.zero : WebServerConfig :=
  { WebServerEnabled := false, Port := 0, ReadTimeout := 0, WriteTimeout := 0,
    IdleTimeout := 0, ShutdownTimeout := 0, EnableGracefulShutdown := false }

/-! ## The host container -/

/-- A dynamic value that implements the `router.Router` interface. -/
structure RouterImpl where
  id : Nat
  deriving DecidableEq, Repr

/-- A non-nil value of the interface type `container.Component`: either one whose dynamic
type implements `router.Router`, or one whose dynamic type does not. -/
inductive Component where
  | router (r : RouterImpl)
  | other (id : Nat)
  deriving DecidableEq, Repr

/-- Modelled from the spec: the host's `container.ApplicationContext`, which belongs to the
goboot container package and not to this repository. It offers the variable store ("a mapping
from string key to string value"), the by-name component lookup, and the typed component
lookup, which fills the `*WebServerConfig` it is handed and returns an `error`. -/
structure ApplicationContext where
  vars : GoString → Option GoString
  componentByName : GoString → Option Component × Option GoError
  componentWebServerConfig : WebServerConfig → WebServerConfig × Option GoError

/-- Modelled from the spec: `ctx.GetVariable(key)` of the host, the value stored under `key`,
and the empty string when the key is absent. -/
def ApplicationContext.GetVariable (ctx : ApplicationContext) (key : GoString) : GoString :=
  (ctx.vars key).getD []

/-- The call `ctx.GetComponentByName(name)` of the host. -/
def ApplicationContext.GetComponentByName (ctx : ApplicationContext) (name : GoString) :
    Option Component × Option GoError :=
  ctx.componentByName name

/-- The call `ctx.GetComponent(&cfg)` of the host with a `*WebServerConfig` target: the
contents of the target after the call, and the returned `error`. -/
def ApplicationContext.GetComponent (ctx : ApplicationContext) (target : WebServerConfig) :
    WebServerConfig × Option GoError :=
  ctx.componentWebServerConfig target

/-- The context with variable `key` bound to `value`, everything else unchanged. -/
def ApplicationContext.withVariable (ctx : ApplicationContext) (key value : GoString) :
    ApplicationContext :=
  { ctx with vars := fun k => if k = key then some value else ctx.vars k }

/-- The method `(*WebServerConfig).Name`. -/
def WebServerConfig.Name (_c : WebServerConfig) : GoString := defaultWebServerName

/-- The method `(*WebServerConfig).Init`: the receiver after the call and the returned
`error`. -/
def WebServerConfig.Init (fracNanos : Nat → Nat → Nat → Nat) (c : WebServerConfig)
    (ctx : ApplicationContext) : WebServerConfig × Option GoError :=
  let port := ctx.GetVariable (ascii "server.port")
  let port := if port = [] then defaultWebServerPort else port
  match Atoi port with
  | .error err => (c, some err)
  | .ok portI =>
    let shutdownTimeout := ctx.GetVariable (ascii "server.shutdown-timeout")
    let shutdownTimeout := if shutdownTimeout = [] then defaultShutdownTimeout else shutdownTimeout
    match ParseDuration fracNanos shutdownTimeout with
    | .error err => (c, some err)
    | .ok shutdownTimeoutD =>
      let readTimeout := ctx.GetVariable (ascii "server.read-timeout")
      let readTimeout := if readTimeout = [] then defaultReadTimeout else readTimeout
      match ParseDuration fracNanos readTimeout with
      | .error err => (c, some err)
      | .ok readTimeoutD =>
        let writeTimeout := ctx.GetVariable (ascii "server.write-timeout")
        let writeTimeout := if writeTimeout = [] then defaultWriteTimeout else writeTimeout
        match ParseDuration fracNanos writeTimeout with
        | .error err => (c, some err)
        | .ok writeTimeoutD =>
          let idleTimeout := ctx.GetVariable (ascii "server.idle-timeout")
          let idleTimeout := if idleTimeout = [] then defaultIdleTimeout else idleTimeout
          match ParseDuration fracNanos idleTimeout with
          | .error err => (c, some err)
          | .ok idleTimeoutD =>
            let webServerEnabled := ctx.GetVariable (ascii "server.web-server-enabled")
            let webServerEnabledBool :=
              match ParseBool webServerEnabled with
              | .error _ => defaultWebServerEnabled
              | .ok b => b
            ({ WebServerEnabled := webServerEnabledBool
               Port := portI
               ReadTimeout := readTimeoutD
               WriteTimeout := writeTimeoutD
               IdleTimeout := idleTimeoutD
               ShutdownTimeout := shutdownTimeoutD
               EnableGracefulShutdown := webServerEnabledBool }, none)

/-! ## The conditional starter (`starter.go`) -/

/-- The method `(*WebStarter).ShouldStart`. -/
def WebStarter.ShouldStart (builder : ApplicationContext) : Bool :=
  let webServerConfig := WebServerConfig.zero
  let (webServerConfig, err) := builder.GetComponent webServerConfig
  match err with
  | some _ => false
  | none => webServerConfig.WebServerEnabled

/-! ## The managed web server (`server.go`) -/

/-- The fields of `http.Server` that `Start` sets. -/
structure HttpServer where
  Addr : GoString
  Handler : Option RouterImpl
  ReadTimeout : Int
  WriteTimeout : Int
  IdleTimeout : Int
  deriving DecidableEq, Repr

/-- The struct `WebServer`: `config` and `httpServer` are pointers, `router` is an interface
value; `none` is nil. -/
structure WebServer where
  config : Option WebServerConfig
  router : Option RouterImpl
  httpServer : Option HttpServer
  deriving DecidableEq, Repr

/-- The zero value `&WebServer{}` that `WebStarter.Start` registers. -/
def WebServer.zero : WebServer := { config := none, router := none, httpServer := none }

/-- The method `(*WebServer).Name`. -/
def WebServer.Name (_c : WebServer) : GoString := ascii "DefaultWebServer"

/-- The single-value type assertion `x.(router.Router)`: it panics on a nil interface and on
a dynamic type that does not implement `Router`. -/
def assertRouter : Option Component → Except Panic (Option RouterImpl)
  | some (.router r) => .ok (some r)
  | some (.other _) => .error .interfaceConversion
  | none => .error .interfaceConversion

/-- The method `(*WebServer).Init`: a panic, or the receiver after the call and the returned
`error`. -/
def WebServer.Init (c : WebServer) (ctx : ApplicationContext) :
    Except Panic (WebServer × Option GoError) :=
  let (httpRouterComponent, err) := ctx.GetComponentByName (ascii "DefaultHttpRouter")
  match err with
  | some e => .ok (c, some e)
  | none =>
    match assertRouter httpRouterComponent with
    | .error p => .error p
    | .ok r =>
      let c := { c with router := r }
      let serverConfig := WebServerConfig.zero
      let (serverConfig, err) := ctx.GetComponent serverConfig
      match err with
      | some e => .ok (c, some e)
      | none => .ok ({ c with config := some serverConfig }, none)

/-- The method `(*WebServer).Start`: a panic, or the receiver after the call. The goroutine
that runs `ListenAndServe` is started after the fields are set and is not part of the
model. -/
def WebServer.Start (s : WebServer) (_ctx : Context) : Except Panic WebServer :=
  match s.router with
  | none => .error .routerNotSet
  | some r =>
    match s.config with
    | none => .error .nilDereference
    | some config =>
      let addr := ascii ":" ++ formatInt config.Port
      .ok { s with
            httpServer := some
              { Addr := addr
                Handler := some r
                ReadTimeout := config.ReadTimeout
                WriteTimeout := config.WriteTimeout
                IdleTimeout := config.IdleTimeout } }

/-- A structured log record: level and message. -/
structure LogRecord where
  level : String
  msg : String
  deriving DecidableEq, Repr

/-- What a call to `Stop` that returns has done: the context it handed to the listener's
`Shutdown`, what `Shutdown` returned, and the records it logged. -/
structure StopTrace where
  shutdownCtx : Context
  shutdownErr : Option GoError
  logs : List LogRecord
  deriving DecidableEq, Repr

/-- The method `(*WebServer).Stop`, called at clock reading `now`; `shutdown` is the
listener's `(*http.Server).Shutdown`, which on a nil receiver dereferences nil. -/
def WebServer.Stop (shutdown : HttpServer → Context → Option GoError) (now : Time)
    (s : WebServer) (ctx : Context) : Except Panic StopTrace :=
  match s.config with
  | none => .error .nilDereference
  | some config =>
    let shutdownCtx := WithTimeout now ctx config.ShutdownTimeout
    let logs := [{ level := "INFO", msg := "Stopping web server" : LogRecord }]
    match s.httpServer with
    | none => .error .nilDereference
    | some httpServer =>
      match shutdown httpServer shutdownCtx with
      | some err =>
        .ok { shutdownCtx := shutdownCtx, shutdownErr := some err,
              logs := logs ++ [{ level := "ERROR", msg := "Error shutting down web server" }] }
      | none => .ok { shutdownCtx := shutdownCtx, shutdownErr := none, logs := logs }

/-- The method `(*WebServer).GetConfig`. -/
def WebServer.GetConfig (s : WebServer) : WebServerConfig :=
  match s.config with
  | none => WebServerConfig.zero
  | some config => config

/-- The method `(*WebServer).SetRouter`. -/
def WebServer.SetRouter (s : WebServer) (r : Option RouterImpl) : WebServer :=
  { s with router := r }

/-! ## Auxiliary notions used in the statements -/

/-- The result `r` of a parser is an error. -/
def Fails {ε α : Type} (r : Except ε α) : Prop :=
  match r with
  | .error _ => True
  | .ok _ => False

instance {ε α : Type} (r : Except ε α) : Decidable (Fails r) := by
  cases r <;> unfold Fails <;> infer_instance

/-- The string that is parsed for a key: the variable's value `v`, or the default literal
`dflt` when `v` is the empty string. -/
def orDefault (v dflt : GoString) : GoString := if v = [] then dflt else v

/-- The variable `key` is absent from the variable store, or bound to the empty string. -/
def ApplicationContext.absentOrEmpty (ctx : ApplicationContext) (key : GoString) : Prop :=
  ctx.vars key = none ∨ ctx.vars key = some []

/-- The configuration in which every field has its documented default. -/
def defaultConfig : WebServerConfig :=
  { WebServerEnabled := true, Port := 8080, ReadTimeout := 5000000000,
    WriteTimeout := 10000000000, IdleTimeout := 60000000000,
    ShutdownTimeout := 30000000000, EnableGracefulShutdown := true }

instance (ctx : ApplicationContext) (key : GoString) : Decidable (ctx.absentOrEmpty key) := by
  unfold ApplicationContext.absentOrEmpty; infer_instance

/-- A context without variables and without components. -/
def emptyContext : ApplicationContext :=
  { vars := fun _ => none
    componentByName := fun _ => (none, some (.external 0))
    componentWebServerConfig := fun c => (c, some (.external 0)) }

/-- A context whose variable store holds exactly the listed bindings (the first binding of a
key wins) and whose component lookups fail. -/
def contextOf (bindings : List (GoString × GoString)) : ApplicationContext :=
  { emptyContext with vars := fun k => (bindings.find? (fun b => b.1 = k)).map (·.2) }

/-- A context in which the name `DefaultHttpRouter` resolves to a router and the typed lookup
yields the default configuration. -/
def routerContext : ApplicationContext :=
  { vars := fun _ => none
    componentByName := fun name =>
      if name = ascii "DefaultHttpRouter" then (some (.router ⟨1⟩), none)
      else (none, some (.external 1))
    componentWebServerConfig := fun _ => (defaultConfig, none) }

/-- A context in which the name `DefaultHttpRouter` resolves to a component that does not
implement `router.Router`. -/
def misnamedContext : ApplicationContext :=
  { routerContext with componentByName := fun _ => (some (.other 7), none) }

/-! ## Facts about the parsers -/

theorem fails_iff {ε α : Type} (r : Except ε α) : Fails r ↔ ∃ e, r = .error e := by
  cases r <;> simp [Fails]

theorem not_fails_iff {ε α : Type} (r : Except ε α) : ¬ Fails r ↔ ∃ a, r = .ok a := by
  cases r <;> simp [Fails]

theorem absentOrEmpty_iff (ctx : ApplicationContext) (key : GoString) :
    ctx.absentOrEmpty key ↔ ctx.GetVariable key = [] := by
  unfold ApplicationContext.absentOrEmpty ApplicationContext.GetVariable
  cases h : ctx.vars key <;> simp

theorem Atoi_defaultWebServerPort : Atoi defaultWebServerPort = .ok 8080 := by decide

theorem ParseDuration_defaultReadTimeout (fr : Nat → Nat → Nat → Nat) :
    ParseDuration fr defaultReadTimeout = .ok 5000000000 := by rfl

theorem ParseDuration_defaultWriteTimeout (fr : Nat → Nat → Nat → Nat) :
    ParseDuration fr defaultWriteTimeout = .ok 10000000000 := by rfl

theorem ParseDuration_defaultIdleTimeout (fr : Nat → Nat → Nat → Nat) :
    ParseDuration fr defaultIdleTimeout = .ok 60000000000 := by rfl

theorem ParseDuration_defaultShutdownTimeout (fr : Nat → Nat → Nat → Nat) :
    ParseDuration fr defaultShutdownTimeout = .ok 30000000000 := by rfl

theorem ParseBool_nil : ParseBool [] = .error (.syntaxError "ParseBool" []) := by decide

/-- The body of `WebServerConfig.Init` written over the five strings that are parsed. -/
theorem WebServerConfig.Init_eq (fr : Nat → Nat → Nat → Nat) (c : WebServerConfig)
    (ctx : ApplicationContext) :
    WebServerConfig.Init fr c ctx =
      match Atoi (orDefault (ctx.GetVariable (ascii "server.port")) defaultWebServerPort) with
      | .error err => (c, some err)
      | .ok portI =>
        match ParseDuration fr (orDefault (ctx.GetVariable (ascii "server.shutdown-timeout"))
            defaultShutdownTimeout) with
        | .error err => (c, some err)
        | .ok sd =>
          match ParseDuration fr (orDefault (ctx.GetVariable (ascii "server.read-timeout"))
              defaultReadTimeout) with
          | .error err => (c, some err)
          | .ok rd =>
            match ParseDuration fr (orDefault (ctx.GetVariable (ascii "server.write-timeout"))
                defaultWriteTimeout) with
            | .error err => (c, some err)
            | .ok wd =>
              match ParseDuration fr (orDefault (ctx.GetVariable (ascii "server.idle-timeout"))
                  defaultIdleTimeout) with
              | .error err => (c, some err)
              | .ok idl =>
                let en := match ParseBool (ctx.GetVariable (ascii "server.web-server-enabled")) with
                  | .error _ => true
                  | .ok b => b
                ({ WebServerEnabled := en, Port := portI, ReadTimeout := rd, WriteTimeout := wd,
                   IdleTimeout := idl, ShutdownTimeout := sd, EnableGracefulShutdown := en },
                 none) := by
  rfl

theorem GetVariable_withVariable (ctx : ApplicationContext) (key value k : GoString) :
    (ctx.withVariable key value).GetVariable k
      = if k = key then value else ctx.GetVariable k := by
  unfold ApplicationContext.withVariable ApplicationContext.GetVariable
  by_cases h : k = key <;> simp [h]

theorem orDefault_of_empty {v : GoString} (dflt : GoString) (h : v = []) :
    orDefault v dflt = dflt := by
  simp [orDefault, h]

theorem orDefault_of_ne {v : GoString} (dflt : GoString) (h : v ≠ []) :
    orDefault v dflt = v := by
  simp [orDefault, h]

theorem orDefault_self_default (dflt : GoString) (h : dflt ≠ []) :
    orDefault dflt dflt = dflt := by
  simp [orDefault, h]

/-! ## `time.ParseDuration` terminates within its bound -/

theorem leadingInt_length (s : GoString) :
    ∀ (x v : Nat) (rem : GoString), leadingInt s x = some (v, rem) →
      rem.length ≤ s.length := by
  induction s with
  | nil =>
    intro x v rem h
    simp only [leadingInt, Option.some.injEq, Prod.mk.injEq] at h
    rw [← h.2]
  | cons c rest ih =>
    intro x v rem h
    simp only [leadingInt] at h
    split at h
    · simp only [Option.some.injEq, Prod.mk.injEq] at h
      rw [← h.2]
    · split at h
      · exact absurd h (by simp)
      · split at h
        · exact absurd h (by simp)
        · have := ih _ v rem h
          simp only [List.length_cons]
          omega

theorem leadingFraction_length (s : GoString) :
    ∀ (x scale : Nat) (overflow : Bool),
      (leadingFraction s x scale overflow).2.2.length ≤ s.length := by
  induction s with
  | nil => intro x scale overflow; simp [leadingFraction]
  | cons c rest ih =>
    intro x scale overflow
    simp only [leadingFraction]
    split
    · exact le_refl _
    · split
      · have := ih x scale overflow
        simp only [List.length_cons]; omega
      · split
        · have := ih x scale true
          simp only [List.length_cons]; omega
        · split
          · have := ih x scale true
            simp only [List.length_cons]; omega
          · have := ih ((x * 10 + c - 48) % 2 ^ 64) (scale * 10) false
            simp only [List.length_cons]; omega

theorem fractionPart_length (s : GoString) : (fractionPart s).rest.length ≤ s.length := by
  unfold fractionPart
  split
  · have h1 := leadingFraction_length s.tail 0 1 false
    have h2 := List.length_tail s
    simp only
    omega
  · exact le_refl _

theorem splitUnit_length (s : GoString) :
    (splitUnit s).1.length + (splitUnit s).2.length = s.length := by
  induction s with
  | nil => simp [splitUnit]
  | cons c rest ih =>
    simp only [splitUnit]
    split
    · simp
    · simp only [List.length_cons]; omega

/-- Every pass of the loop of `time.ParseDuration` that does not fail consumes at least one
byte. -/
theorem parseDurationStep_length (fr : Nat → Nat → Nat → Nat) (orig s : GoString) (d d1 : Nat)
    (s1 : GoString) (h : parseDurationStep fr orig s d = .ok (d1, s1)) :
    s1.length < s.length := by
  unfold parseDurationStep at h
  cases hh : s.head? with
  | none => rw [hh] at h; exact absurd h (by simp)
  | some c0 =>
    rw [hh] at h
    simp only at h
    split at h
    · exact absurd h (by simp)
    · cases hl : leadingInt s 0 with
      | none => rw [hl] at h; exact absurd h (by simp)
      | some p =>
        obtain ⟨v, t⟩ := p
        rw [hl] at h
        simp only at h
        have ht := leadingInt_length s 0 v t hl
        have hf := fractionPart_length t
        have hsu := splitUnit_length (fractionPart t).rest
        split at h
        · exact absurd h (by simp)
        · split at h
          · exact absurd h (by simp)
          · rename_i hu
            have key : ∀ dd vv, addGroup orig (splitUnit (fractionPart t).rest).2 dd vv
                = .ok (d1, s1) → s1.length < s.length := by
              intro dd vv hag
              unfold addGroup at hag
              simp only at hag
              split at hag
              · exact absurd hag (by simp)
              · simp only [Except.ok.injEq, Prod.mk.injEq] at hag
                rw [← hag.2]
                omega
            split at h
            · exact absurd h (by simp)
            · split at h
              · exact absurd h (by simp)
              · split at h
                · split at h
                  · exact absurd h (by simp)
                  · exact key _ _ h
                · exact key _ _ h

/-- With at least `len(s)` passes allowed, the loop of `time.ParseDuration` comes to an end:
it returns a duration or an error, and never stops for lack of passes. -/
theorem parseDurationLoop_isSome (fr : Nat → Nat → Nat → Nat) (orig : GoString) :
    ∀ (fuel : Nat) (s : GoString) (d : Nat), s.length ≤ fuel →
      ∃ r, parseDurationLoop fr orig fuel s d = some r := by
  intro fuel
  induction fuel with
  | zero =>
    intro s d hs
    cases s with
    | nil => exact ⟨_, rfl⟩
    | cons c rest => simp at hs
  | succ n ih =>
    intro s d hs
    cases s with
    | nil => exact ⟨_, rfl⟩
    | cons c rest =>
      simp only [parseDurationLoop]
      cases hstep : parseDurationStep fr orig (c :: rest) d with
      | error e => exact ⟨_, rfl⟩
      | ok p =>
        obtain ⟨d1, s1⟩ := p
        have := parseDurationStep_length fr orig (c :: rest) d d1 s1 hstep
        exact ih s1 d1 (by omega)

/-! ## C3: when `WebServerConfig.Init` returns an error -/

/-- C3. `WebServerConfig.Init` returns an error exactly when, after the defaults have been
substituted for absent or empty values, `server.port` does not parse as an integer or one of
the four timeouts does not parse as a duration; the receiver is then left unchanged. In
particular a non-empty value supplied for the port or for a timeout that does not parse makes
`Init` return an error, as does `server.port = "not-a-number"`. -/
theorem WebServerConfig.Init_error_iff (fr : Nat → Nat → Nat → Nat) (c : WebServerConfig)
    (ctx : ApplicationContext) :
    ((WebServerConfig.Init fr c ctx).2 ≠ none ↔
      (Fails (Atoi (orDefault (ctx.GetVariable (ascii "server.port")) defaultWebServerPort))
        ∨ Fails (ParseDuration fr (orDefault (ctx.GetVariable (ascii "server.shutdown-timeout"))
            defaultShutdownTimeout))
        ∨ Fails (ParseDuration fr (orDefault (ctx.GetVariable (ascii "server.read-timeout"))
            defaultReadTimeout))
        ∨ Fails (ParseDuration fr (orDefault (ctx.GetVariable (ascii "server.write-timeout"))
            defaultWriteTimeout))
        ∨ Fails (ParseDuration fr (orDefault (ctx.GetVariable (ascii "server.idle-timeout"))
            defaultIdleTimeout))))
    ∧ ((WebServerConfig.Init fr c ctx).2 ≠ none → (WebServerConfig.Init fr c ctx).1 = c)
    ∧ (∀ v, v ≠ [] → ctx.vars (ascii "server.port") = some v → Fails (Atoi v) →
        (WebServerConfig.Init fr c ctx).2 ≠ none)
    ∧ (∀ key ∈ [ascii "server.shutdown-timeout", ascii "server.read-timeout",
          ascii "server.write-timeout", ascii "server.idle-timeout"],
        ∀ v, v ≠ [] → ctx.vars key = some v → Fails (ParseDuration fr v) →
          (WebServerConfig.Init fr c ctx).2 ≠ none)
    ∧ (ctx.vars (ascii "server.port") = some (ascii "not-a-number") →
        (WebServerConfig.Init fr c ctx).2
          = some (.syntaxError "Atoi" (ascii "not-a-number"))) := by
  have hiff : (WebServerConfig.Init fr c ctx).2 ≠ none ↔
      (Fails (Atoi (orDefault (ctx.GetVariable (ascii "server.port")) defaultWebServerPort))
        ∨ Fails (ParseDuration fr (orDefault (ctx.GetVariable (ascii "server.shutdown-timeout"))
            defaultShutdownTimeout))
        ∨ Fails (ParseDuration fr (orDefault (ctx.GetVariable (ascii "server.read-timeout"))
            defaultReadTimeout))
        ∨ Fails (ParseDuration fr (orDefault (ctx.GetVariable (ascii "server.write-timeout"))
            defaultWriteTimeout))
        ∨ Fails (ParseDuration fr (orDefault (ctx.GetVariable (ascii "server.idle-timeout"))
            defaultIdleTimeout))) := by
    rw [WebServerConfig.Init_eq]
    cases Atoi (orDefault (ctx.GetVariable (ascii "server.port")) defaultWebServerPort) <;>
    cases ParseDuration fr (orDefault (ctx.GetVariable (ascii "server.shutdown-timeout"))
      defaultShutdownTimeout) <;>
    cases ParseDuration fr (orDefault (ctx.GetVariable (ascii "server.read-timeout"))
      defaultReadTimeout) <;>
    cases ParseDuration fr (orDefault (ctx.GetVariable (ascii "server.write-timeout"))
      defaultWriteTimeout) <;>
    cases ParseDuration fr (orDefault (ctx.GetVariable (ascii "server.idle-timeout"))
      defaultIdleTimeout) <;>
    simp [Fails]
  have hget : ∀ key v, v ≠ [] → ctx.vars key = some v → ∀ dflt,
      orDefault (ctx.GetVariable key) dflt = v := by
    intro key v hv hk dflt
    have : ctx.GetVariable key = v := by simp [ApplicationContext.GetVariable, hk]
    rw [this]; exact orDefault_of_ne dflt hv
  refine ⟨hiff, ?_, ?_, ?_, ?_⟩
  · intro _
    rw [WebServerConfig.Init_eq] at *
    cases h1 : Atoi (orDefault (ctx.GetVariable (ascii "server.port")) defaultWebServerPort) <;>
    cases h2 : ParseDuration fr (orDefault (ctx.GetVariable (ascii "server.shutdown-timeout"))
      defaultShutdownTimeout) <;>
    cases h3 : ParseDuration fr (orDefault (ctx.GetVariable (ascii "server.read-timeout"))
      defaultReadTimeout) <;>
    cases h4 : ParseDuration fr (orDefault (ctx.GetVariable (ascii "server.write-timeout"))
      defaultWriteTimeout) <;>
    cases h5 : ParseDuration fr (orDefault (ctx.GetVariable (ascii "server.idle-timeout"))
      defaultIdleTimeout) <;>
    simp_all
  · intro v hv hk hf
    rw [hiff, hget _ v hv hk]
    exact Or.inl hf
  · intro key hkey v hv hk hf
    rw [hiff]
    simp only [List.mem_cons, List.mem_singleton, List.not_mem_nil, or_false] at hkey
    rcases hkey with h | h | h | h <;> subst h
    · rw [hget _ v hv hk]; exact Or.inr (Or.inl hf)
    · rw [hget _ v hv hk]; exact Or.inr (Or.inr (Or.inl hf))
    · rw [hget _ v hv hk]; exact Or.inr (Or.inr (Or.inr (Or.inl hf)))
    · rw [hget _ v hv hk]; exact Or.inr (Or.inr (Or.inr (Or.inr hf)))
  · intro hk
    have h1 : orDefault (ctx.GetVariable (ascii "server.port")) defaultWebServerPort
        = ascii "not-a-number" := hget _ _ (by decide) hk _
    have h2 : Atoi (ascii "not-a-number")
        = .error (.syntaxError "Atoi" (ascii "not-a-number")) := by decide
    rw [WebServerConfig.Init_eq, h1, h2]

/-- Instance of C3: a store with `server.read-timeout = "fast"` and one with
`server.port = "not-a-number"` make `Init` fail and leave the receiver unchanged; a store
with well-formed values does not. -/
theorem WebServerConfig.Init_error_iff_witness :
    (WebServerConfig.Init exactFrac WebServerConfig.zero
        (contextOf [(ascii "server.read-timeout", ascii "fast")])).2 ≠ none
    ∧ (WebServerConfig.Init exactFrac WebServerConfig.zero
        (contextOf [(ascii "server.read-timeout", ascii "fast")])).1 = WebServerConfig.zero
    ∧ (WebServerConfig.Init exactFrac WebServerConfig.zero
        (contextOf [(ascii "server.port", ascii "not-a-number")])).2
          = some (.syntaxError "Atoi" (ascii "not-a-number"))
    ∧ ¬ (WebServerConfig.Init exactFrac WebServerConfig.zero
        (contextOf [(ascii "server.port", ascii "9090")])).2 ≠ none := by
  have h := WebServerConfig.Init_error_iff exactFrac WebServerConfig.zero
    (contextOf [(ascii "server.read-timeout", ascii "fast")])
  have h1 := h.2.2.2.1 (ascii "server.read-timeout") (by decide) (ascii "fast") (by decide)
    (by decide) (by decide)
  refine ⟨h1, h.2.1 h1, ?_, ?_⟩
  · exact (WebServerConfig.Init_error_iff exactFrac WebServerConfig.zero
      (contextOf [(ascii "server.port", ascii "not-a-number")])).2.2.2.2 (by decide)
  · rw [(WebServerConfig.Init_error_iff exactFrac WebServerConfig.zero
      (contextOf [(ascii "server.port", ascii "9090")])).1]
    decide

/-! ## C1: defaults -/

/-- Substituting the default literal for a key that is absent or empty does not change the
string that is parsed for any key. -/
theorem orDefault_withVariable (ctx : ApplicationContext) (key dflt k d : GoString)
    (hd : dflt ≠ []) (habs : ctx.absentOrEmpty key) (hk : k = key → d = dflt) :
    orDefault ((ctx.withVariable key dflt).GetVariable k) d
      = orDefault (ctx.GetVariable k) d := by
  rw [GetVariable_withVariable]
  by_cases h : k = key
  · subst h
    rw [if_pos rfl, hk rfl, orDefault_self_default dflt hd,
      orDefault_of_empty dflt ((absentOrEmpty_iff ctx k).1 habs)]
  · rw [if_neg h]

/-- What a successful `WebServerConfig.Init` has stored: every field is the parsed value of
the string resolved for its key, and the two Boolean fields hold the parsed flag, `true` when
the flag does not parse. -/
theorem WebServerConfig.Init_fields (fr : Nat → Nat → Nat → Nat) (c : WebServerConfig)
    (ctx : ApplicationContext) (h : (WebServerConfig.Init fr c ctx).2 = none) :
    Atoi (orDefault (ctx.GetVariable (ascii "server.port")) defaultWebServerPort)
        = .ok (WebServerConfig.Init fr c ctx).1.Port
    ∧ ParseDuration fr (orDefault (ctx.GetVariable (ascii "server.read-timeout"))
          defaultReadTimeout) = .ok (WebServerConfig.Init fr c ctx).1.ReadTimeout
    ∧ ParseDuration fr (orDefault (ctx.GetVariable (ascii "server.write-timeout"))
          defaultWriteTimeout) = .ok (WebServerConfig.Init fr c ctx).1.WriteTimeout
    ∧ ParseDuration fr (orDefault (ctx.GetVariable (ascii "server.idle-timeout"))
          defaultIdleTimeout) = .ok (WebServerConfig.Init fr c ctx).1.IdleTimeout
    ∧ ParseDuration fr (orDefault (ctx.GetVariable (ascii "server.shutdown-timeout"))
          defaultShutdownTimeout) = .ok (WebServerConfig.Init fr c ctx).1.ShutdownTimeout
    ∧ (WebServerConfig.Init fr c ctx).1.WebServerEnabled
        = (match ParseBool (ctx.GetVariable (ascii "server.web-server-enabled")) with
           | .error _ => true
           | .ok b => b)
    ∧ (WebServerConfig.Init fr c ctx).1.EnableGracefulShutdown
        = (WebServerConfig.Init fr c ctx).1.WebServerEnabled := by
  rw [WebServerConfig.Init_eq] at h ⊢
  cases h1 : Atoi (orDefault (ctx.GetVariable (ascii "server.port")) defaultWebServerPort) <;>
  cases h2 : ParseDuration fr (orDefault (ctx.GetVariable (ascii "server.shutdown-timeout"))
    defaultShutdownTimeout) <;>
  cases h3 : ParseDuration fr (orDefault (ctx.GetVariable (ascii "server.read-timeout"))
    defaultReadTimeout) <;>
  cases h4 : ParseDuration fr (orDefault (ctx.GetVariable (ascii "server.write-timeout"))
    defaultWriteTimeout) <;>
  cases h5 : ParseDuration fr (orDefault (ctx.GetVariable (ascii "server.idle-timeout"))
    defaultIdleTimeout) <;>
  simp_all

/-- `WebServerConfig.Init` returns no error as soon as each of the five parsed keys is absent
or empty, or holds a string that parses. -/
theorem WebServerConfig.Init_ok_of_absent_or_valid (fr : Nat → Nat → Nat → Nat)
    (c : WebServerConfig) (ctx : ApplicationContext)
    (hport : ctx.absentOrEmpty (ascii "server.port")
      ∨ ¬ Fails (Atoi (ctx.GetVariable (ascii "server.port"))))
    (hread : ctx.absentOrEmpty (ascii "server.read-timeout")
      ∨ ¬ Fails (ParseDuration fr (ctx.GetVariable (ascii "server.read-timeout"))))
    (hwrite : ctx.absentOrEmpty (ascii "server.write-timeout")
      ∨ ¬ Fails (ParseDuration fr (ctx.GetVariable (ascii "server.write-timeout"))))
    (hidle : ctx.absentOrEmpty (ascii "server.idle-timeout")
      ∨ ¬ Fails (ParseDuration fr (ctx.GetVariable (ascii "server.idle-timeout"))))
    (hshutdown : ctx.absentOrEmpty (ascii "server.shutdown-timeout")
      ∨ ¬ Fails (ParseDuration fr (ctx.GetVariable (ascii "server.shutdown-timeout")))) :
    (WebServerConfig.Init fr c ctx).2 = none := by
  have hA : ∀ key dflt (parse : GoString → Except GoError Int), ¬ Fails (parse dflt) →
      (ctx.absentOrEmpty key ∨ ¬ Fails (parse (ctx.GetVariable key))) →
      ∃ a, parse (orDefault (ctx.GetVariable key) dflt) = .ok a := by
    intro key dflt parse hd hk
    apply (not_fails_iff _).1
    by_cases he : ctx.GetVariable key = []
    · rw [orDefault_of_empty _ he]; exact hd
    · rw [orDefault_of_ne _ he]
      rcases hk with hk | hk
      · exact absurd ((absentOrEmpty_iff _ _).1 hk) he
      · exact hk
  obtain ⟨p, hp⟩ := hA _ defaultWebServerPort Atoi
    (by rw [Atoi_defaultWebServerPort]; simp [Fails]) hport
  obtain ⟨rd, hrd⟩ := hA _ defaultReadTimeout (ParseDuration fr)
    (by rw [ParseDuration_defaultReadTimeout]; simp [Fails]) hread
  obtain ⟨wd, hwd⟩ := hA _ defaultWriteTimeout (ParseDuration fr)
    (by rw [ParseDuration_defaultWriteTimeout]; simp [Fails]) hwrite
  obtain ⟨idl, hidl⟩ := hA _ defaultIdleTimeout (ParseDuration fr)
    (by rw [ParseDuration_defaultIdleTimeout]; simp [Fails]) hidle
  obtain ⟨sd, hsd⟩ := hA _ defaultShutdownTimeout (ParseDuration fr)
    (by rw [ParseDuration_defaultShutdownTimeout]; simp [Fails]) hshutdown
  rw [WebServerConfig.Init_eq, hp, hsd, hrd, hwd, hidl]

/-- C1. When each of the six keys is absent or empty, `WebServerConfig.Init` returns no
error and leaves the configuration with port 8080, read timeout 5s, write timeout 10s, idle
timeout 60s, shutdown timeout 30s and the server enabled. More generally a key that is absent
or empty is resolved to its default whatever the other keys hold: `Init` behaves as on the
store in which that key is bound to the default literal; whenever `Init` returns no error the
field of an absent or empty key holds its default (8080, 5s, 10s, 60s, 30s, enabled) and
every other field holds the parsed value of its own variable; and `Init` returns no error as
soon as every port or timeout key is absent, empty, or holds a string that parses. -/
theorem WebServerConfig.Init_defaults (fr : Nat → Nat → Nat → Nat) (c : WebServerConfig)
    (ctx : ApplicationContext) :
    ((ctx.absentOrEmpty (ascii "server.port")
        ∧ ctx.absentOrEmpty (ascii "server.read-timeout")
        ∧ ctx.absentOrEmpty (ascii "server.write-timeout")
        ∧ ctx.absentOrEmpty (ascii "server.idle-timeout")
        ∧ ctx.absentOrEmpty (ascii "server.shutdown-timeout")
        ∧ ctx.absentOrEmpty (ascii "server.web-server-enabled")) →
      WebServerConfig.Init fr c ctx = (defaultConfig, none))
    ∧ (ctx.absentOrEmpty (ascii "server.port") →
        WebServerConfig.Init fr c ctx
          = WebServerConfig.Init fr c (ctx.withVariable (ascii "server.port") (ascii "8080")))
    ∧ (ctx.absentOrEmpty (ascii "server.read-timeout") →
        WebServerConfig.Init fr c ctx
          = WebServerConfig.Init fr c
              (ctx.withVariable (ascii "server.read-timeout") (ascii "5s")))
    ∧ (ctx.absentOrEmpty (ascii "server.write-timeout") →
        WebServerConfig.Init fr c ctx
          = WebServerConfig.Init fr c
              (ctx.withVariable (ascii "server.write-timeout") (ascii "10s")))
    ∧ (ctx.absentOrEmpty (ascii "server.idle-timeout") →
        WebServerConfig.Init fr c ctx
          = WebServerConfig.Init fr c
              (ctx.withVariable (ascii "server.idle-timeout") (ascii "60s")))
    ∧ (ctx.absentOrEmpty (ascii "server.shutdown-timeout") →
        WebServerConfig.Init fr c ctx
          = WebServerConfig.Init fr c
              (ctx.withVariable (ascii "server.shutdown-timeout") (ascii "30s")))
    ∧ (ctx.absentOrEmpty (ascii "server.web-server-enabled") →
        WebServerConfig.Init fr c ctx
          = WebServerConfig.Init fr c
              (ctx.withVariable (ascii "server.web-server-enabled") (ascii "true")))
    ∧ ((WebServerConfig.Init fr c ctx).2 = none →
        (ctx.absentOrEmpty (ascii "server.port") →
          (WebServerConfig.Init fr c ctx).1.Port = 8080)
        ∧ (ctx.absentOrEmpty (ascii "server.read-timeout") →
          (WebServerConfig.Init fr c ctx).1.ReadTimeout = 5000000000)
        ∧ (ctx.absentOrEmpty (ascii "server.write-timeout") →
          (WebServerConfig.Init fr c ctx).1.WriteTimeout = 10000000000)
        ∧ (ctx.absentOrEmpty (ascii "server.idle-timeout") →
          (WebServerConfig.Init fr c ctx).1.IdleTimeout = 60000000000)
        ∧ (ctx.absentOrEmpty (ascii "server.shutdown-timeout") →
          (WebServerConfig.Init fr c ctx).1.ShutdownTimeout = 30000000000)
        ∧ (ctx.absentOrEmpty (ascii "server.web-server-enabled") →
          (WebServerConfig.Init fr c ctx).1.WebServerEnabled = true))
    ∧ ((WebServerConfig.Init fr c ctx).2 = none →
        (¬ ctx.absentOrEmpty (ascii "server.port") →
          Atoi (ctx.GetVariable (ascii "server.port"))
            = .ok (WebServerConfig.Init fr c ctx).1.Port)
        ∧ (¬ ctx.absentOrEmpty (ascii "server.read-timeout") →
          ParseDuration fr (ctx.GetVariable (ascii "server.read-timeout"))
            = .ok (WebServerConfig.Init fr c ctx).1.ReadTimeout)
        ∧ (¬ ctx.absentOrEmpty (ascii "server.write-timeout") →
          ParseDuration fr (ctx.GetVariable (ascii "server.write-timeout"))
            = .ok (WebServerConfig.Init fr c ctx).1.WriteTimeout)
        ∧ (¬ ctx.absentOrEmpty (ascii "server.idle-timeout") →
          ParseDuration fr (ctx.GetVariable (ascii "server.idle-timeout"))
            = .ok (WebServerConfig.Init fr c ctx).1.IdleTimeout)
        ∧ (¬ ctx.absentOrEmpty (ascii "server.shutdown-timeout") →
          ParseDuration fr (ctx.GetVariable (ascii "server.shutdown-timeout"))
            = .ok (WebServerConfig.Init fr c ctx).1.ShutdownTimeout)
        ∧ (∀ b, ParseBool (ctx.GetVariable (ascii "server.web-server-enabled")) = .ok b →
          (WebServerConfig.Init fr c ctx).1.WebServerEnabled = b))
    ∧ ((ctx.absentOrEmpty (ascii "server.port")
          ∨ ¬ Fails (Atoi (ctx.GetVariable (ascii "server.port"))))
        ∧ (ctx.absentOrEmpty (ascii "server.read-timeout")
          ∨ ¬ Fails (ParseDuration fr (ctx.GetVariable (ascii "server.read-timeout"))))
        ∧ (ctx.absentOrEmpty (ascii "server.write-timeout")
          ∨ ¬ Fails (ParseDuration fr (ctx.GetVariable (ascii "server.write-timeout"))))
        ∧ (ctx.absentOrEmpty (ascii "server.idle-timeout")
          ∨ ¬ Fails (ParseDuration fr (ctx.GetVariable (ascii "server.idle-timeout"))))
        ∧ (ctx.absentOrEmpty (ascii "server.shutdown-timeout")
          ∨ ¬ Fails (ParseDuration fr (ctx.GetVariable (ascii "server.shutdown-timeout")))) →
      (WebServerConfig.Init fr c ctx).2 = none) := by
  have hdef : ∀ {key dflt : GoString} {parse : GoString → Except GoError Int} {a v : Int},
      parse (orDefault (ctx.GetVariable key) dflt) = .ok a → parse dflt = .ok v →
      ctx.absentOrEmpty key → a = v := by
    intro key dflt parse a v hp hd habs
    rw [orDefault_of_empty _ ((absentOrEmpty_iff _ _).1 habs), hd] at hp
    simp only [Except.ok.injEq] at hp
    exact hp.symm
  have hsup : ∀ {key dflt : GoString} {parse : GoString → Except GoError Int} {a : Int},
      parse (orDefault (ctx.GetVariable key) dflt) = .ok a →
      ¬ ctx.absentOrEmpty key → parse (ctx.GetVariable key) = .ok a := by
    intro key dflt parse a hp habs
    rwa [orDefault_of_ne _ (fun he => habs ((absentOrEmpty_iff _ _).2 he))] at hp
  refine ⟨?_, ?_, ?_, ?_, ?_, ?_, ?_, ?_, ?_, ?_⟩
  rotate_left 7
  · intro hok
    obtain ⟨hp, hrd, hwd, hidl, hsd, hen, _⟩ := WebServerConfig.Init_fields fr c ctx hok
    refine ⟨hdef hp Atoi_defaultWebServerPort,
      hdef hrd (ParseDuration_defaultReadTimeout fr),
      hdef hwd (ParseDuration_defaultWriteTimeout fr),
      hdef hidl (ParseDuration_defaultIdleTimeout fr),
      hdef hsd (ParseDuration_defaultShutdownTimeout fr), ?_⟩
    intro habs
    rw [hen, (absentOrEmpty_iff _ _).1 habs, ParseBool_nil]
  · intro hok
    obtain ⟨hp, hrd, hwd, hidl, hsd, hen, _⟩ := WebServerConfig.Init_fields fr c ctx hok
    refine ⟨hsup hp, hsup hrd, hsup hwd, hsup hidl, hsup hsd, ?_⟩
    intro b hb
    rw [hen, hb]
  · rintro ⟨h1, h2, h3, h4, h5⟩
    exact WebServerConfig.Init_ok_of_absent_or_valid fr c ctx h1 h2 h3 h4 h5
  · rintro ⟨h1, h2, h3, h4, h5, h6⟩
    rw [WebServerConfig.Init_eq,
      orDefault_of_empty _ ((absentOrEmpty_iff _ _).1 h1),
      orDefault_of_empty _ ((absentOrEmpty_iff _ _).1 h2),
      orDefault_of_empty _ ((absentOrEmpty_iff _ _).1 h3),
      orDefault_of_empty _ ((absentOrEmpty_iff _ _).1 h4),
      orDefault_of_empty _ ((absentOrEmpty_iff _ _).1 h5),
      (absentOrEmpty_iff _ _).1 h6,
      Atoi_defaultWebServerPort, ParseDuration_defaultReadTimeout,
      ParseDuration_defaultWriteTimeout, ParseDuration_defaultIdleTimeout,
      ParseDuration_defaultShutdownTimeout, ParseBool_nil]
    rfl
  all_goals
    intro h
    rw [WebServerConfig.Init_eq, WebServerConfig.Init_eq]
  · rw [orDefault_withVariable ctx (ascii "server.port") (ascii "8080") (ascii "server.port")
        defaultWebServerPort (by decide) h (fun _ => rfl),
      orDefault_withVariable ctx (ascii "server.port") (ascii "8080") (ascii "server.shutdown-timeout")
        defaultShutdownTimeout (by decide) h (by decide),
      orDefault_withVariable ctx (ascii "server.port") (ascii "8080") (ascii "server.read-timeout")
        defaultReadTimeout (by decide) h (by decide),
      orDefault_withVariable ctx (ascii "server.port") (ascii "8080") (ascii "server.write-timeout")
        defaultWriteTimeout (by decide) h (by decide),
      orDefault_withVariable ctx (ascii "server.port") (ascii "8080") (ascii "server.idle-timeout")
        defaultIdleTimeout (by decide) h (by decide),
      GetVariable_withVariable, if_neg (by decide)]
  · rw [orDefault_withVariable ctx (ascii "server.read-timeout") (ascii "5s") (ascii "server.port")
        defaultWebServerPort (by decide) h (by decide),
      orDefault_withVariable ctx (ascii "server.read-timeout") (ascii "5s") (ascii "server.shutdown-timeout")
        defaultShutdownTimeout (by decide) h (by decide),
      orDefault_withVariable ctx (ascii "server.read-timeout") (ascii "5s") (ascii "server.read-timeout")
        defaultReadTimeout (by decide) h (fun _ => rfl),
      orDefault_withVariable ctx (ascii "server.read-timeout") (ascii "5s") (ascii "server.write-timeout")
        defaultWriteTimeout (by decide) h (by decide),
      orDefault_withVariable ctx (ascii "server.read-timeout") (ascii "5s") (ascii "server.idle-timeout")
        defaultIdleTimeout (by decide) h (by decide),
      GetVariable_withVariable, if_neg (by decide)]
  · rw [orDefault_withVariable ctx (ascii "server.write-timeout") (ascii "10s") (ascii "server.port")
        defaultWebServerPort (by decide) h (by decide),
      orDefault_withVariable ctx (ascii "server.write-timeout") (ascii "10s") (ascii "server.shutdown-timeout")
        defaultShutdownTimeout (by decide) h (by decide),
      orDefault_withVariable ctx (ascii "server.write-timeout") (ascii "10s") (ascii "server.read-timeout")
        defaultReadTimeout (by decide) h (by decide),
      orDefault_withVariable ctx (ascii "server.write-timeout") (ascii "10s") (ascii "server.write-timeout")
        defaultWriteTimeout (by decide) h (fun _ => rfl),
      orDefault_withVariable ctx (ascii "server.write-timeout") (ascii "10s") (ascii "server.idle-timeout")
        defaultIdleTimeout (by decide) h (by decide),
      GetVariable_withVariable, if_neg (by decide)]
  · rw [orDefault_withVariable ctx (ascii "server.idle-timeout") (ascii "60s") (ascii "server.port")
        defaultWebServerPort (by decide) h (by decide),
      orDefault_withVariable ctx (ascii "server.idle-timeout") (ascii "60s") (ascii "server.shutdown-timeout")
        defaultShutdownTimeout (by decide) h (by decide),
      orDefault_withVariable ctx (ascii "server.idle-timeout") (ascii "60s") (ascii "server.read-timeout")
        defaultReadTimeout (by decide) h (by decide),
      orDefault_withVariable ctx (ascii "server.idle-timeout") (ascii "60s") (ascii "server.write-timeout")
        defaultWriteTimeout (by decide) h (by decide),
      orDefault_withVariable ctx (ascii "server.idle-timeout") (ascii "60s") (ascii "server.idle-timeout")
        defaultIdleTimeout (by decide) h (fun _ => rfl),
      GetVariable_withVariable, if_neg (by decide)]
  · rw [orDefault_withVariable ctx (ascii "server.shutdown-timeout") (ascii "30s") (ascii "server.port")
        defaultWebServerPort (by decide) h (by decide),
      orDefault_withVariable ctx (ascii "server.shutdown-timeout") (ascii "30s") (ascii "server.shutdown-timeout")
        defaultShutdownTimeout (by decide) h (fun _ => rfl),
      orDefault_withVariable ctx (ascii "server.shutdown-timeout") (ascii "30s") (ascii "server.read-timeout")
        defaultReadTimeout (by decide) h (by decide),
      orDefault_withVariable ctx (ascii "server.shutdown-timeout") (ascii "30s") (ascii "server.write-timeout")
        defaultWriteTimeout (by decide) h (by decide),
      orDefault_withVariable ctx (ascii "server.shutdown-timeout") (ascii "30s") (ascii "server.idle-timeout")
        defaultIdleTimeout (by decide) h (by decide),
      GetVariable_withVariable, if_neg (by decide)]
  · rw [orDefault_withVariable ctx (ascii "server.web-server-enabled") (ascii "true") (ascii "server.port")
        defaultWebServerPort (by decide) h (by decide),
      orDefault_withVariable ctx (ascii "server.web-server-enabled") (ascii "true") (ascii "server.shutdown-timeout")
        defaultShutdownTimeout (by decide) h (by decide),
      orDefault_withVariable ctx (ascii "server.web-server-enabled") (ascii "true") (ascii "server.read-timeout")
        defaultReadTimeout (by decide) h (by decide),
      orDefault_withVariable ctx (ascii "server.web-server-enabled") (ascii "true") (ascii "server.write-timeout")
        defaultWriteTimeout (by decide) h (by decide),
      orDefault_withVariable ctx (ascii "server.web-server-enabled") (ascii "true") (ascii "server.idle-timeout")
        defaultIdleTimeout (by decide) h (by decide),
      GetVariable_withVariable, if_pos rfl, (absentOrEmpty_iff _ _).1 h]
    have h1 : ParseBool (ascii "true") = .ok true := by decide
    rw [h1, ParseBool_nil]

/-- Instance of C1: on the store without variables `Init` yields the default configuration;
on a store with `server.port = "9090"` and an empty `server.read-timeout` it behaves as with
`server.read-timeout = "5s"`; and on the store with `server.port = "9090"` and
`server.web-server-enabled = "false"` it returns no error, the absent read timeout is 5s and
the absent shutdown timeout 30s, while the port is 9090 and the server is disabled. -/
theorem WebServerConfig.Init_defaults_witness :
    WebServerConfig.Init exactFrac WebServerConfig.zero emptyContext = (defaultConfig, none)
    ∧ WebServerConfig.Init exactFrac WebServerConfig.zero
        (contextOf [(ascii "server.port", ascii "9090"), (ascii "server.read-timeout", [])])
      = WebServerConfig.Init exactFrac WebServerConfig.zero
          ((contextOf [(ascii "server.port", ascii "9090"),
              (ascii "server.read-timeout", [])]).withVariable
            (ascii "server.read-timeout") (ascii "5s"))
    ∧ (WebServerConfig.Init exactFrac WebServerConfig.zero
        (contextOf [(ascii "server.port", ascii "9090"),
          (ascii "server.web-server-enabled", ascii "false")])).2 = none
    ∧ (WebServerConfig.Init exactFrac WebServerConfig.zero
        (contextOf [(ascii "server.port", ascii "9090"),
          (ascii "server.web-server-enabled", ascii "false")])).1.ReadTimeout = 5000000000
    ∧ (WebServerConfig.Init exactFrac WebServerConfig.zero
        (contextOf [(ascii "server.port", ascii "9090"),
          (ascii "server.web-server-enabled", ascii "false")])).1.ShutdownTimeout
        = 30000000000
    ∧ Atoi (ascii "9090")
        = .ok (WebServerConfig.Init exactFrac WebServerConfig.zero
            (contextOf [(ascii "server.port", ascii "9090"),
              (ascii "server.web-server-enabled", ascii "false")])).1.Port
    ∧ (WebServerConfig.Init exactFrac WebServerConfig.zero
        (contextOf [(ascii "server.port", ascii "9090"),
          (ascii "server.web-server-enabled", ascii "false")])).1.WebServerEnabled = false := by
  have h := WebServerConfig.Init_defaults exactFrac WebServerConfig.zero
    (contextOf [(ascii "server.port", ascii "9090"),
      (ascii "server.web-server-enabled", ascii "false")])
  have hok := h.2.2.2.2.2.2.2.2.2 (by decide)
  have hval := h.2.2.2.2.2.2.2.1 hok
  have hsup := h.2.2.2.2.2.2.2.2.1 hok
  exact ⟨(WebServerConfig.Init_defaults exactFrac WebServerConfig.zero emptyContext).1
      (by decide),
    (WebServerConfig.Init_defaults exactFrac WebServerConfig.zero
      (contextOf [(ascii "server.port", ascii "9090"),
        (ascii "server.read-timeout", [])])).2.2.1 (by decide),
    hok, hval.2.1 (by decide), hval.2.2.2.2.1 (by decide), hsup.1 (by decide),
    hsup.2.2.2.2.2 false (by decide)⟩

/-! ## C2: the enabled flag -/

/-- C2. With the port and the timeouts valid or absent, `WebServerConfig.Init` returns no
error whatever `server.web-server-enabled` holds. When that string is not a Boolean literal
the flag is set to `true`, and `WebStarter.ShouldStart` is `true` on every context whose typed
lookup yields the resulting configuration; when it is a Boolean literal the flag is its parsed
value. -/
theorem WebServerConfig.Init_enabled (fr : Nat → Nat → Nat → Nat) (c : WebServerConfig)
    (ctx : ApplicationContext)
    (hport : ¬ Fails (Atoi (orDefault (ctx.GetVariable (ascii "server.port"))
      defaultWebServerPort)))
    (hshutdown : ¬ Fails (ParseDuration fr
      (orDefault (ctx.GetVariable (ascii "server.shutdown-timeout")) defaultShutdownTimeout)))
    (hread : ¬ Fails (ParseDuration fr
      (orDefault (ctx.GetVariable (ascii "server.read-timeout")) defaultReadTimeout)))
    (hwrite : ¬ Fails (ParseDuration fr
      (orDefault (ctx.GetVariable (ascii "server.write-timeout")) defaultWriteTimeout)))
    (hidle : ¬ Fails (ParseDuration fr
      (orDefault (ctx.GetVariable (ascii "server.idle-timeout")) defaultIdleTimeout))) :
    (WebServerConfig.Init fr c ctx).2 = none
    ∧ (Fails (ParseBool (ctx.GetVariable (ascii "server.web-server-enabled"))) →
        (WebServerConfig.Init fr c ctx).1.WebServerEnabled = true
        ∧ ∀ host : ApplicationContext,
            host.GetComponent WebServerConfig.zero = ((WebServerConfig.Init fr c ctx).1, none) →
            WebStarter.ShouldStart host = true)
    ∧ (∀ b, ParseBool (ctx.GetVariable (ascii "server.web-server-enabled")) = .ok b →
        (WebServerConfig.Init fr c ctx).1.WebServerEnabled = b) := by
  obtain ⟨p, hp⟩ := (not_fails_iff _).1 hport
  obtain ⟨sd, hsd⟩ := (not_fails_iff _).1 hshutdown
  obtain ⟨rd, hrd⟩ := (not_fails_iff _).1 hread
  obtain ⟨wd, hwd⟩ := (not_fails_iff _).1 hwrite
  obtain ⟨idl, hidl⟩ := (not_fails_iff _).1 hidle
  rw [WebServerConfig.Init_eq, hp, hsd, hrd, hwd, hidl]
  refine ⟨rfl, ?_, ?_⟩
  · intro hf
    obtain ⟨e, he⟩ := (fails_iff _).1 hf
    rw [he]
    refine ⟨rfl, ?_⟩
    intro host hhost
    simp only [WebStarter.ShouldStart, hhost]
  · intro b hb
    rw [hb]

/-- Instance of C2: with `server.web-server-enabled = "yes"`, which `ParseBool` rejects,
`Init` returns no error and enables the server; with `"false"` the server is disabled. -/
theorem WebServerConfig.Init_enabled_witness :
    (WebServerConfig.Init exactFrac WebServerConfig.zero
        (contextOf [(ascii "server.web-server-enabled", ascii "yes")])).2 = none
    ∧ (WebServerConfig.Init exactFrac WebServerConfig.zero
        (contextOf [(ascii "server.web-server-enabled", ascii "yes")])).1.WebServerEnabled = true
    ∧ (WebServerConfig.Init exactFrac WebServerConfig.zero
        (contextOf [(ascii "server.web-server-enabled", ascii "false")])).1.WebServerEnabled
        = false :=
  ⟨(WebServerConfig.Init_enabled exactFrac WebServerConfig.zero
      (contextOf [(ascii "server.web-server-enabled", ascii "yes")])
      (by decide) (by decide) (by decide) (by decide) (by decide)).1,
   ((WebServerConfig.Init_enabled exactFrac WebServerConfig.zero
      (contextOf [(ascii "server.web-server-enabled", ascii "yes")])
      (by decide) (by decide) (by decide) (by decide) (by decide)).2.1 (by decide)).1,
   (WebServerConfig.Init_enabled exactFrac WebServerConfig.zero
      (contextOf [(ascii "server.web-server-enabled", ascii "false")])
      (by decide) (by decide) (by decide) (by decide) (by decide)).2.2 false (by decide)⟩

/-! ## C4: the start predicate -/

/-- C4. `WebStarter.ShouldStart` returns a Boolean and no error: `false` whenever the typed
lookup of the configuration fails, and otherwise the `WebServerEnabled` flag of the
configuration the lookup produced. -/
theorem WebStarter.ShouldStart_spec (builder : ApplicationContext) :
    ((builder.GetComponent WebServerConfig.zero).2 ≠ none →
      WebStarter.ShouldStart builder = false)
    ∧ ((builder.GetComponent WebServerConfig.zero).2 = none →
      WebStarter.ShouldStart builder
        = (builder.GetComponent WebServerConfig.zero).1.WebServerEnabled) := by
  unfold WebStarter.ShouldStart
  constructor
  · intro h
    cases hr : (builder.GetComponent WebServerConfig.zero).2 with
    | none => exact absurd hr h
    | some e => simp only [hr]
  · intro h
    simp only [h]

/-- Instance of C4: the predicate is `false` on a context whose typed lookup fails, and is
the stored flag on a context whose typed lookup yields the default configuration. -/
theorem WebStarter.ShouldStart_spec_witness :
    WebStarter.ShouldStart emptyContext = false
    ∧ WebStarter.ShouldStart
        { emptyContext with componentWebServerConfig := fun _ => (defaultConfig, none) }
      = true :=
  ⟨(WebStarter.ShouldStart_spec emptyContext).1 (by decide),
   (WebStarter.ShouldStart_spec
      { emptyContext with componentWebServerConfig := fun _ => (defaultConfig, none) }).2
      (by decide)⟩

/-! ## C7: the port -/

/-- The fast-path loop of `Atoi` only produces non-negative values below
`(n + 1) * 10 ^ len(s)`. -/
theorem atoiFastLoop_bound (s : GoString) :
    ∀ (n m : Int), 0 ≤ n → atoiFastLoop s n = some m →
      0 ≤ m ∧ m < (n + 1) * 10 ^ s.length := by
  induction s with
  | nil =>
    intro n m hn h
    simp only [atoiFastLoop, Option.some.injEq] at h
    subst h
    simp only [List.length_nil, pow_zero, mul_one]
    omega
  | cons ch rest ih =>
    intro n m hn h
    simp only [atoiFastLoop] at h
    split at h
    · exact absurd h (by simp)
    · rename_i hch
      have hd : (ch + 256 - 48) % 256 ≤ 9 := by omega
      have hn' : (0 : Int) ≤ n * 10 + (((ch + 256 - 48) % 256 : Nat) : Int) := by omega
      obtain ⟨h0, h1⟩ := ih _ m hn' h
      refine ⟨h0, ?_⟩
      have hle : n * 10 + (((ch + 256 - 48) % 256 : Nat) : Int) + 1 ≤ (n + 1) * 10 := by omega
      have hpow : (0 : Int) ≤ 10 ^ rest.length := by positivity
      calc m < (n * 10 + (((ch + 256 - 48) % 256 : Nat) : Int) + 1) * 10 ^ rest.length := h1
        _ ≤ ((n + 1) * 10) * 10 ^ rest.length := Int.mul_le_mul_of_nonneg_right hle hpow
        _ = (n + 1) * 10 ^ (ch :: rest).length := by
            rw [List.length_cons, pow_succ]; ring

/-- A value returned by `strconv.ParseInt(s, 10, 0)` fits a signed 64-bit integer. -/
theorem ParseInt_range (s : GoString) (n : Int) (h : ParseInt s = .ok n) :
    -(2 : Int) ^ 63 ≤ n ∧ n < (2 : Int) ^ 63 := by
  have h63 : (2 : Int) ^ 63 = 9223372036854775808 := by norm_num
  have hc : (2 : Nat) ^ (intSize - 1) = 9223372036854775808 := by simp [intSize]
  rw [h63]
  unfold ParseInt at h
  simp only [hc] at h
  by_cases hs : s = []
  · rw [if_pos hs] at h; exact absurd h (by simp)
  · rw [if_neg hs] at h
    generalize ParseUint (if s.head? = some 43 then s.tail
      else if s.head? = some 45 then s.tail else s) = r at h
    cases r with
    | error e => exact absurd h (by simp)
    | ok p =>
      obtain ⟨un, fl⟩ := p
      simp only at h
      by_cases h1 : ¬ s.head? = some 45 ∧ un ≥ 9223372036854775808
      · rw [if_pos h1] at h; exact absurd h (by simp)
      · rw [if_neg h1] at h
        by_cases h2 : s.head? = some 45 ∧ un > 9223372036854775808
        · rw [if_pos h2] at h; exact absurd h (by simp)
        · rw [if_neg h2] at h
          by_cases h3 : s.head? = some 45
          · rw [if_pos h3] at h
            simp only [Except.ok.injEq] at h
            have : ¬ un > 9223372036854775808 := fun hgt => h2 ⟨h3, hgt⟩
            omega
          · rw [if_neg h3] at h
            simp only [Except.ok.injEq] at h
            have : ¬ un ≥ 9223372036854775808 := fun hge => h1 ⟨h3, hge⟩
            omega

/-- A value returned by `strconv.Atoi` fits a signed 64-bit integer. -/
theorem Atoi_range (s : GoString) (n : Int) (h : Atoi s = .ok n) :
    -(2 : Int) ^ 63 ≤ n ∧ n < (2 : Int) ^ 63 := by
  unfold Atoi at h
  simp only at h
  by_cases hfast : intSize = 64 ∧ 0 < s.length ∧ s.length < 19
  · rw [if_pos hfast] at h
    have hlen : (if s.head? = some 45 ∨ s.head? = some 43 then s.tail else s).length ≤ 18 := by
      split
      · have := List.length_tail s; omega
      · omega
    generalize (if s.head? = some 45 ∨ s.head? = some 43 then s.tail else s) = t at h hlen
    by_cases hsig : (s.head? = some 45 ∨ s.head? = some 43) ∧ t.length < 1
    · rw [if_pos hsig] at h; exact absurd h (by simp)
    · rw [if_neg hsig] at h
      cases hm : atoiFastLoop t 0 with
      | none => rw [hm] at h; exact absurd h (by simp)
      | some m =>
        rw [hm] at h
        simp only at h
        obtain ⟨h0, h1⟩ := atoiFastLoop_bound t 0 m (le_refl 0) hm
        have hpow : (10 : Int) ^ t.length ≤ 10 ^ 18 := pow_le_pow_right₀ (by norm_num) hlen
        have h2 : m < 10 ^ 18 := by
          have : m < 10 ^ t.length := by simpa using h1
          exact lt_of_lt_of_le this hpow
        have h63 : (2 : Int) ^ 63 = 9223372036854775808 := by norm_num
        have h18 : (10 : Int) ^ 18 = 1000000000000000000 := by norm_num
        rw [h63]
        rw [h18] at h2
        by_cases hneg : s.head? = some 45
        · rw [if_pos hneg] at h
          simp only [Except.ok.injEq] at h; omega
        · rw [if_neg hneg] at h
          simp only [Except.ok.injEq] at h; omega
  · rw [if_neg hfast] at h
    cases hp : ParseInt s with
    | error e =>
      rw [hp] at h
      cases e <;> exact absurd h (by simp)
    | ok k =>
      rw [hp] at h
      simp only [Except.ok.injEq] at h
      subst h
      exact ParseInt_range s k hp

/-- C7 (as amended). When `WebServerConfig.Init` returns no error, the port is the value
`strconv.Atoi` yields for the `server.port` string (the literal `"8080"` when the variable is
absent or empty). It fits a signed 64-bit integer; no positivity or upper bound is checked. It
is 8080 when the variable is absent or empty. -/
theorem WebServerConfig.Init_port (fr : Nat → Nat → Nat → Nat) (c : WebServerConfig)
    (ctx : ApplicationContext) (h : (WebServerConfig.Init fr c ctx).2 = none) :
    Atoi (orDefault (ctx.GetVariable (ascii "server.port")) defaultWebServerPort)
        = .ok (WebServerConfig.Init fr c ctx).1.Port
    ∧ -(2 : Int) ^ 63 ≤ (WebServerConfig.Init fr c ctx).1.Port
    ∧ (WebServerConfig.Init fr c ctx).1.Port < (2 : Int) ^ 63
    ∧ (ctx.absentOrEmpty (ascii "server.port") →
        (WebServerConfig.Init fr c ctx).1.Port = 8080) := by
  have hparse : Atoi (orDefault (ctx.GetVariable (ascii "server.port")) defaultWebServerPort)
      = .ok (WebServerConfig.Init fr c ctx).1.Port := by
    rw [WebServerConfig.Init_eq] at h ⊢
    cases h1 : Atoi (orDefault (ctx.GetVariable (ascii "server.port")) defaultWebServerPort) <;>
    cases h2 : ParseDuration fr (orDefault (ctx.GetVariable (ascii "server.shutdown-timeout"))
      defaultShutdownTimeout) <;>
    cases h3 : ParseDuration fr (orDefault (ctx.GetVariable (ascii "server.read-timeout"))
      defaultReadTimeout) <;>
    cases h4 : ParseDuration fr (orDefault (ctx.GetVariable (ascii "server.write-timeout"))
      defaultWriteTimeout) <;>
    cases h5 : ParseDuration fr (orDefault (ctx.GetVariable (ascii "server.idle-timeout"))
      defaultIdleTimeout) <;>
    simp_all
  obtain ⟨hlo, hhi⟩ := Atoi_range _ _ hparse
  refine ⟨hparse, hlo, hhi, ?_⟩
  intro habs
  rw [orDefault_of_empty _ ((absentOrEmpty_iff _ _).1 habs), Atoi_defaultWebServerPort] at hparse
  simp only [Except.ok.injEq] at hparse
  exact hparse.symm

/-- Instance of C7 as amended: with `server.port = "9090"` the port is 9090. -/
theorem WebServerConfig.Init_port_witness :
    (WebServerConfig.Init exactFrac WebServerConfig.zero
        (contextOf [(ascii "server.port", ascii "9090")])).2 = none
    ∧ Atoi (ascii "9090")
        = .ok (WebServerConfig.Init exactFrac WebServerConfig.zero
            (contextOf [(ascii "server.port", ascii "9090")])).1.Port :=
  ⟨by decide,
   (WebServerConfig.Init_port exactFrac WebServerConfig.zero
      (contextOf [(ascii "server.port", ascii "9090")]) (by decide)).1⟩

/-- C7 as stated fails: with `server.port = "0"`, and likewise with `"-1"`, `Init` returns no
error, and the resulting port is 0, respectively -1, which is not positive. -/
theorem WebServerConfig.Init_port_not_positive :
    ((WebServerConfig.Init exactFrac WebServerConfig.zero
        (contextOf [(ascii "server.port", ascii "0")])).2 = none
      ∧ (WebServerConfig.Init exactFrac WebServerConfig.zero
        (contextOf [(ascii "server.port", ascii "0")])).1.Port = 0)
    ∧ ((WebServerConfig.Init exactFrac WebServerConfig.zero
        (contextOf [(ascii "server.port", ascii "-1")])).2 = none
      ∧ (WebServerConfig.Init exactFrac WebServerConfig.zero
        (contextOf [(ascii "server.port", ascii "-1")])).1.Port = -1)
    ∧ ¬ (1 ≤ (WebServerConfig.Init exactFrac WebServerConfig.zero
        (contextOf [(ascii "server.port", ascii "0")])).1.Port) := by
  decide

/-! ## The managed web server -/

/-- What `WebServer.Init` does in each case of its two lookups. -/
theorem WebServer.Init_cases (c : WebServer) (ctx : ApplicationContext) :
    (∀ e, (ctx.GetComponentByName (ascii "DefaultHttpRouter")).2 = some e →
      WebServer.Init c ctx = .ok (c, some e))
    ∧ (∀ r e, ctx.GetComponentByName (ascii "DefaultHttpRouter") = (some (.router r), none) →
        (ctx.GetComponent WebServerConfig.zero).2 = some e →
        WebServer.Init c ctx = .ok ({ c with router := some r }, some e))
    ∧ (∀ r, ctx.GetComponentByName (ascii "DefaultHttpRouter") = (some (.router r), none) →
        (ctx.GetComponent WebServerConfig.zero).2 = none →
        WebServer.Init c ctx
          = .ok ({ c with router := some r,
                          config := some (ctx.GetComponent WebServerConfig.zero).1 }, none))
    ∧ (∀ s, WebServer.Init c ctx = .ok (s, none) → s.router ≠ none ∧ s.config ≠ none) := by
  refine ⟨?_, ?_, ?_, ?_⟩
  · intro e h
    unfold WebServer.Init
    simp only [h]
  · intro r e h1 h2
    unfold WebServer.Init
    simp only [h1, assertRouter, h2]
  · intro r h1 h2
    unfold WebServer.Init
    simp only [h1, assertRouter, h2]
  · intro s h
    unfold WebServer.Init at h
    rcases hq : ctx.GetComponentByName (ascii "DefaultHttpRouter") with ⟨comp, err⟩
    rw [hq] at h
    cases err with
    | some e => simp at h
    | none =>
      simp only at h
      rcases comp with _ | (r | i)
      · simp [assertRouter] at h
      · simp only [assertRouter] at h
        cases hc : (ctx.GetComponent WebServerConfig.zero).2 with
        | some e => simp [hc] at h
        | none =>
          simp only [hc, Except.ok.injEq, Prod.mk.injEq, and_true] at h
          subst h
          simp
      · simp [assertRouter] at h

/-- C6, evaluated where it fails. When the component registered under `DefaultHttpRouter`
does not implement `router.Router`, or the lookup returns a nil component without an error,
`WebServer.Init` panics in the type assertion; it does not return an error. -/
theorem WebServer.Init_panics_on_non_router :
    WebServer.Init WebServer.zero misnamedContext = .error .interfaceConversion
    ∧ WebServer.Init WebServer.zero
        { routerContext with componentByName := fun _ => (none, none) }
      = .error .interfaceConversion := by
  decide

/-- C5, evaluated where it fails. `Stop` on a freshly constructed server dereferences the nil
`config`; `Stop` on a server that `Init` has initialised and `Start` has not started calls
`Shutdown` on the nil `httpServer`. Both panic. Once `Start` has run, `Stop` returns, also
when it is called again. -/
theorem WebServer.Stop_before_Start_panics :
    (∀ shutdown now ctx,
      WebServer.Stop shutdown now WebServer.zero ctx = .error .nilDereference)
    ∧ (∃ s, WebServer.Init WebServer.zero routerContext = .ok (s, none)
        ∧ ∀ shutdown now ctx, WebServer.Stop shutdown now s ctx = .error .nilDereference)
    ∧ (∃ s s', WebServer.Init WebServer.zero routerContext = .ok (s, none)
        ∧ WebServer.Start s ⟨none⟩ = .ok s'
        ∧ ∀ shutdown now ctx, ∃ t, WebServer.Stop shutdown now s' ctx = .ok t) := by
  refine ⟨fun _ _ _ => rfl, ⟨_, rfl, fun _ _ _ => rfl⟩, ⟨_, _, rfl, rfl, ?_⟩⟩
  intro shutdown now ctx
  simp only [WebServer.Stop]
  split <;> exact ⟨_, rfl⟩

/-! ## C8: when `Start` panics -/

/-- C8 as stated fails: a server whose router was set by `SetRouter` and whose `config` is
nil has a router, and `Start` panics on it with a nil dereference. -/
theorem WebServer.Start_panics_with_router :
    (WebServer.zero.SetRouter (some ⟨1⟩)).router ≠ none
    ∧ WebServer.Start (WebServer.zero.SetRouter (some ⟨1⟩)) ⟨none⟩
        = .error .nilDereference := by
  decide

/-- C8 (as amended). `Start` panics with "router not set" on every server whose router is
nil. On every server whose router is set and whose `config` is set, as after a successful
`Init` or after `Init` followed by `SetRouter` with a router, `Start` does not panic; so for a
server with `config` set, `Start` panics exactly when no router is set. -/
theorem WebServer.Start_panics_iff (s : WebServer) (ctx : Context) :
    (s.router = none → WebServer.Start s ctx = .error .routerNotSet)
    ∧ (s.router ≠ none → s.config ≠ none → ∃ s', WebServer.Start s ctx = .ok s')
    ∧ (s.config ≠ none → ((∃ p, WebServer.Start s ctx = .error p) ↔ s.router = none))
    ∧ (∀ r, s.config ≠ none → ∃ s', WebServer.Start (s.SetRouter (some r)) ctx = .ok s')
    ∧ (∀ actx s1, WebServer.Init s actx = .ok (s1, none) →
        ∃ s', WebServer.Start s1 ctx = .ok s') := by
  have h1 : s.router = none → WebServer.Start s ctx = .error .routerNotSet := by
    intro h; unfold WebServer.Start; simp only [h]
  have h2 : ∀ t : WebServer, t.router ≠ none → t.config ≠ none →
      ∃ s', WebServer.Start t ctx = .ok s' := by
    intro t hr hc
    obtain ⟨r, hr'⟩ := Option.ne_none_iff_exists'.1 hr
    obtain ⟨cfg, hc'⟩ := Option.ne_none_iff_exists'.1 hc
    unfold WebServer.Start
    simp only [hr', hc']
    exact ⟨_, rfl⟩
  refine ⟨h1, h2 s, ?_, ?_, ?_⟩
  · intro hc
    constructor
    · rintro ⟨p, hp⟩
      by_contra hr
      obtain ⟨s', hs'⟩ := h2 s hr hc
      rw [hs'] at hp
      exact absurd hp (by simp)
    · intro hr
      exact ⟨_, h1 hr⟩
  · intro r hc
    exact h2 _ (by simp [WebServer.SetRouter]) (by simpa [WebServer.SetRouter] using hc)
  · intro actx s1 hi
    obtain ⟨hr, hc⟩ := (WebServer.Init_cases s actx).2.2.2 s1 hi
    exact h2 s1 hr hc

/-- Instance of C8 as amended: the freshly constructed server panics with "router not set",
and the server initialised against `routerContext` starts. -/
theorem WebServer.Start_panics_iff_witness :
    WebServer.Start WebServer.zero ⟨none⟩ = .error .routerNotSet
    ∧ ∃ s', WebServer.Start
        { config := some defaultConfig, router := some ⟨1⟩, httpServer := none } ⟨none⟩
        = .ok s' :=
  ⟨(WebServer.Start_panics_iff WebServer.zero ⟨none⟩).1 rfl,
   (WebServer.Start_panics_iff
      { config := some defaultConfig, router := some ⟨1⟩, httpServer := none } ⟨none⟩).2.1
      (by decide) (by decide)⟩

/-! ## The `%d` rendering is read back by `strconv.Atoi` -/

theorem digitChar_toNat (d : Nat) (h : d < 10) : (Nat.digitChar d).toNat = 48 + d := by
  interval_cases d <;> rfl

theorem atoiFastLoop_append (xs : GoString) (d : Nat) (hd : d ≤ 9) :
    ∀ acc : Int, atoiFastLoop (xs ++ [48 + d]) acc
      = (atoiFastLoop xs acc).map (fun m => m * 10 + (d : Int)) := by
  induction xs with
  | nil =>
    intro acc
    have h1 : (48 + d + 256 - 48) % 256 = d := by omega
    simp only [List.nil_append, atoiFastLoop, h1, Option.map_some']
    rw [if_neg (by omega)]
  | cons c rest ih =>
    intro acc
    simp only [List.cons_append, atoiFastLoop]
    split
    · rfl
    · exact ih _

theorem toDigitsCore_append (fuel : Nat) :
    ∀ (n : Nat) (ds : List Char),
      Nat.toDigitsCore 10 fuel n ds = Nat.toDigitsCore 10 fuel n [] ++ ds := by
  induction fuel with
  | zero => intro n ds; simp [Nat.toDigitsCore]
  | succ f ih =>
    intro n ds
    simp only [Nat.toDigitsCore]
    split
    · simp
    · rw [ih (n / 10) (Nat.digitChar (n % 10) :: ds), ih (n / 10) [Nat.digitChar (n % 10)]]
      simp

theorem atoiFastLoop_toDigitsCore (fuel : Nat) :
    ∀ n : Nat, n < fuel →
      atoiFastLoop ((Nat.toDigitsCore 10 fuel n []).map Char.toNat) 0 = some (n : Int) := by
  induction fuel with
  | zero => intro n h; omega
  | succ f ih =>
    intro n hn
    simp only [Nat.toDigitsCore]
    split
    · rename_i h0
      have hlt : n < 10 := by omega
      have h1 : n % 10 = n := Nat.mod_eq_of_lt hlt
      have h2 : (48 + n + 256 - 48) % 256 = n := by omega
      simp only [List.map_cons, List.map_nil, h1, digitChar_toNat n hlt, atoiFastLoop, h2]
      rw [if_neg (by omega)]
      simp
    · rename_i h0
      have hdiv : n / 10 < f := by omega
      rw [toDigitsCore_append f (n / 10) [Nat.digitChar (n % 10)]]
      simp only [List.map_append, List.map_cons, List.map_nil,
        digitChar_toNat (n % 10) (Nat.mod_lt _ (by norm_num))]
      rw [atoiFastLoop_append _ _ (by omega), ih (n / 10) hdiv]
      simp only [Option.map_some', Option.some.injEq]
      omega

theorem toDigits_ne_nil (n : Nat) : Nat.toDigits 10 n ≠ [] := by
  unfold Nat.toDigits
  simp only [Nat.toDigitsCore]
  split
  · simp
  · rw [toDigitsCore_append]
    simp

/-- On a non-empty string of at most seventeen digits, with or without a leading minus sign,
`strconv.Atoi` takes its fast path and returns the value of the digit loop. -/
theorem Atoi_of_digits (digits : GoString) (m : Int)
    (hval : atoiFastLoop digits 0 = some m) (hne : digits ≠ []) (hlen : digits.length ≤ 17) :
    Atoi digits = .ok m ∧ Atoi (45 :: digits) = .ok (-m) := by
  cases digits with
  | nil => exact absurd rfl hne
  | cons c rest =>
    have hc : (c + 256 - 48) % 256 ≤ 9 := by
      by_contra hcon
      simp only [atoiFastLoop] at hval
      rw [if_pos (by omega)] at hval
      exact absurd hval (by simp)
    have hc45 : c ≠ 45 := by intro h; subst h; omega
    have hc43 : c ≠ 43 := by intro h; subst h; omega
    simp only [List.length_cons] at hlen
    constructor
    · unfold Atoi
      simp only [List.length_cons, List.head?_cons, Option.some.injEq, hc45, hc43, or_self,
        if_false, false_and]
      rw [if_pos ⟨rfl, by omega, by omega⟩, hval]
    · unfold Atoi
      simp only [List.length_cons, List.head?_cons, List.tail_cons, true_or, if_true]
      rw [if_pos ⟨rfl, by omega, by omega⟩, if_neg (by omega), hval]

/-- The decimal rendering of a port-sized integer is read back by `strconv.Atoi` as the same
integer: `Atoi` inverts `formatInt` on the integers of absolute value below `10 ^ 17`. -/
theorem Atoi_formatInt (n : Int) (hlo : -(10 : Int) ^ 17 < n) (hhi : n < (10 : Int) ^ 17) :
    Atoi (formatInt n) = .ok n := by
  have h17 : (10 : Int) ^ 17 = 100000000000000000 := by norm_num
  rw [h17] at hlo hhi
  have habs : n.natAbs < 10 ^ 17 := by
    have : (10 : Nat) ^ 17 = 100000000000000000 := by norm_num
    omega
  have hval : atoiFastLoop ((Nat.toDigits 10 n.natAbs).map Char.toNat) 0
      = some (n.natAbs : Int) :=
    atoiFastLoop_toDigitsCore (n.natAbs + 1) n.natAbs (Nat.lt_succ_self _)
  have hlen : ((Nat.toDigits 10 n.natAbs).map Char.toNat).length ≤ 17 := by
    rw [List.length_map]
    exact Nat.toDigitsCore_length 10 (by norm_num) (n.natAbs + 1) n.natAbs 17 habs
      (by norm_num)
  have hne : (Nat.toDigits 10 n.natAbs).map Char.toNat ≠ [] := by
    simpa using toDigits_ne_nil n.natAbs
  obtain ⟨hpos, hmin⟩ := Atoi_of_digits _ _ hval hne hlen
  unfold formatInt
  simp only
  by_cases hneg : n < 0
  · rw [if_pos hneg, hmin]
    simp only [Except.ok.injEq]
    omega
  · rw [if_neg hneg, hpos]
    simp only [Except.ok.injEq]
    omega

/-! ## C9: the listener that `Start` constructs -/

/-- C9. On an initialised server with a router set, `Start` returns with an HTTP server
whose `Addr` is `":"` followed by the decimal rendering of the configured port and nothing
else (for a port of absolute value below `10 ^ 17`, `strconv.Atoi` reads the part after the
colon back as the port), whose handler is the router and whose read, write and idle timeouts
are those of the configuration; the configuration and the router are left as they were. -/
theorem WebServer.Start_httpServer (s : WebServer) (ctx : Context) (r : RouterImpl)
    (config : WebServerConfig) (hr : s.router = some r) (hc : s.config = some config) :
    ∃ s' srv, WebServer.Start s ctx = .ok s'
      ∧ s'.httpServer = some srv
      ∧ srv.Addr = ascii ":" ++ formatInt config.Port
      ∧ srv.Addr.head? = some 58
      ∧ (-(10 : Int) ^ 17 < config.Port → config.Port < (10 : Int) ^ 17 →
          Atoi srv.Addr.tail = .ok config.Port)
      ∧ srv.Handler = some r
      ∧ srv.ReadTimeout = config.ReadTimeout
      ∧ srv.WriteTimeout = config.WriteTimeout
      ∧ srv.IdleTimeout = config.IdleTimeout
      ∧ s'.config = s.config
      ∧ s'.router = s.router := by
  unfold WebServer.Start
  simp only [hr, hc]
  exact ⟨_, _, rfl, rfl, rfl, rfl, fun hlo hhi => Atoi_formatInt config.Port hlo hhi,
    rfl, rfl, rfl, rfl, rfl, rfl⟩

/-- Instance of C9: with the default configuration the listener's address is `":8080"`. -/
theorem WebServer.Start_httpServer_witness :
    ∃ s' srv,
      WebServer.Start { config := some defaultConfig, router := some ⟨1⟩, httpServer := none }
        ⟨none⟩ = .ok s'
      ∧ s'.httpServer = some srv
      ∧ srv.Addr = ascii ":8080"
      ∧ srv.Handler = some ⟨1⟩
      ∧ srv.ReadTimeout = 5000000000 := by
  obtain ⟨s', srv, h1, h2, h3, _, _, h5, h6, _⟩ :=
    WebServer.Start_httpServer
      { config := some defaultConfig, router := some ⟨1⟩, httpServer := none } ⟨none⟩ ⟨1⟩
      defaultConfig rfl rfl
  refine ⟨s', srv, h1, h2, ?_, h5, h6⟩
  rw [h3]
  decide

/-! ## C10: the deadline of the shutdown context -/

/-- The deadline reported by `context.WithTimeout` is the earlier of the parent's deadline,
if it has one, and `now + timeout`. -/
theorem WithTimeout_deadline (now : Time) (parent : Context) (timeout : Int) :
    (WithTimeout now parent timeout).deadline
      = some (match parent.deadline with
              | some cur => min cur (now + timeout)
              | none => now + timeout) := by
  unfold WithTimeout WithDeadline
  cases hd : parent.deadline with
  | none => rfl
  | some cur =>
    simp only
    by_cases h : cur < now + timeout
    · rw [if_pos h, min_eq_left (le_of_lt h)]
    · rw [if_neg h, min_eq_right (not_lt.1 h)]

/-- C10. On a started server, whatever the caller's context, the configured shutdown timeout
and the outcome of the listener's `Shutdown`, `Stop` returns normally; the context it hands
to `Shutdown` has as deadline the minimum of the caller's deadline, if any, and the time of
the call plus the shutdown timeout, and an error from `Shutdown` is logged, not raised. -/
theorem WebServer.Stop_deadline (shutdown : HttpServer → Context → Option GoError)
    (now : Time) (s : WebServer) (ctx : Context) (config : WebServerConfig) (srv : HttpServer)
    (hc : s.config = some config) (hs : s.httpServer = some srv) :
    ∃ t dl, WebServer.Stop shutdown now s ctx = .ok t
      ∧ t.shutdownCtx.deadline = some dl
      ∧ dl = (match ctx.deadline with
              | some d => min d (now + config.ShutdownTimeout)
              | none => now + config.ShutdownTimeout)
      ∧ dl ≤ now + config.ShutdownTimeout
      ∧ (∀ d, ctx.deadline = some d → dl ≤ d)
      ∧ t.shutdownErr = shutdown srv t.shutdownCtx := by
  have hdl := WithTimeout_deadline now ctx config.ShutdownTimeout
  have key : ∀ t : StopTrace, t.shutdownCtx = WithTimeout now ctx config.ShutdownTimeout →
      t.shutdownErr = shutdown srv t.shutdownCtx →
      ∃ dl, t.shutdownCtx.deadline = some dl
      ∧ dl = (match ctx.deadline with
              | some d => min d (now + config.ShutdownTimeout)
              | none => now + config.ShutdownTimeout)
      ∧ dl ≤ now + config.ShutdownTimeout
      ∧ (∀ d, ctx.deadline = some d → dl ≤ d)
      ∧ t.shutdownErr = shutdown srv t.shutdownCtx := by
    intro t ht he
    refine ⟨_, by rw [ht, hdl], rfl, ?_, ?_, he⟩
    · cases ctx.deadline with
      | none => exact le_refl _
      | some d => exact min_le_right _ _
    · intro d hd
      rw [hd]
      exact min_le_left _ _
  unfold WebServer.Stop
  simp only [hc, hs]
  cases hsd : shutdown srv (WithTimeout now ctx config.ShutdownTimeout) with
  | none =>
    obtain ⟨dl, h⟩ := key ⟨WithTimeout now ctx config.ShutdownTimeout, none, _⟩ rfl hsd.symm
    exact ⟨_, dl, rfl, h⟩
  | some e =>
    obtain ⟨dl, h⟩ := key ⟨WithTimeout now ctx config.ShutdownTimeout, some e, _⟩ rfl hsd.symm
    exact ⟨_, dl, rfl, h⟩

/-- Instance of C10: a caller deadline of 7 s, `Stop` called at 2 s with the default 30 s
shutdown timeout and a `Shutdown` that fails: `Stop` returns, and the deadline handed over
is 7 s. -/
theorem WebServer.Stop_deadline_witness :
    ∃ t, WebServer.Stop (fun _ _ => some (.external 3)) 2000000000
          { config := some defaultConfig, router := some ⟨1⟩,
            httpServer := some ⟨ascii ":8080", some ⟨1⟩, 5000000000, 10000000000,
              60000000000⟩ }
          ⟨some 7000000000⟩ = .ok t
      ∧ t.shutdownCtx.deadline = some 7000000000 := by
  obtain ⟨t, dl, h1, h2, h3, _⟩ :=
    WebServer.Stop_deadline (fun _ _ => some (.external 3)) 2000000000
      { config := some defaultConfig, router := some ⟨1⟩,
        httpServer := some ⟨ascii ":8080", some ⟨1⟩, 5000000000, 10000000000, 60000000000⟩ }
      ⟨some 7000000000⟩ defaultConfig _ rfl rfl
  refine ⟨t, h1, ?_⟩
  rw [h2, h3]
  decide

end GoBoot
